import Mathlib

/-!
Verification of the control-flow-flattening and bytecode-protection engine
in `src/app/src/main/jni/lua/lobfuscate.c` (with declarations in
`lobfuscate.h`), against its natural-language specification.

The development shallowly embeds the engine: instruction words of the host
virtual machine are modelled by an inductive type carrying, per addressing
mode, the decoded operand fields (the excess-K biases applied by the external
`CREATE_*`/`GETARG_*` macro pairs cancel, so signed operands are stored
directly; raw placeholder jump fields are recovered through the recorded
`OFFSET_sJ` bias where the source manipulates them).  Machine integers are
modelled as `Nat`/`Int` with explicit reductions modulo `2^32` or `2^64`
where the C code relies on unsigned wrap-around.
-/

set_option maxRecDepth 10000

namespace LXCObf

/-- Opcodes of the host instruction set that `lobfuscate.c` mentions:
every opcode appearing in its classification switches, its emitters, or its
generators.  The numbering of the full external enumeration is recovered by
`opcodeNum` below. -/
inductive OpCode where
  | OP_MOVE
  | OP_LOADI
  | OP_LOADK
  | OP_ADDI
  | OP_SHLI
  | OP_ADD
  | OP_SUB
  | OP_MUL
  | OP_MMBIN
  | OP_LEN
  | OP_JMP
  | OP_EQ
  | OP_LT
  | OP_LE
  | OP_EQK
  | OP_EQI
  | OP_LTI
  | OP_LEI
  | OP_GTI
  | OP_GEI
  | OP_TEST
  | OP_TESTSET
  | OP_TESTNIL
  | OP_CALL
  | OP_TAILCALL
  | OP_RETURN
  | OP_RETURN0
  | OP_RETURN1
  | OP_FORLOOP
  | OP_FORPREP
  | OP_TFORPREP
  | OP_TFORCALL
  | OP_TFORLOOP
  | OP_NOP
  deriving DecidableEq, Repr

/-- Value of an opcode in the external enumeration, read off the opcode-name
table `getOpName` in `lobfuscate.c` (the external `lopcodes.h` is not part of
the sources; the name table fixes the numbering). -/
def opcodeNum : OpCode → Nat
  | .OP_MOVE => 0
  | .OP_LOADI => 1
  | .OP_LOADK => 3
  | .OP_ADDI => 21
  | .OP_SHLI => 32
  | .OP_ADD => 34
  | .OP_SUB => 35
  | .OP_MUL => 36
  | .OP_MMBIN => 47
  | .OP_LEN => 53
  | .OP_JMP => 57
  | .OP_EQ => 58
  | .OP_LT => 59
  | .OP_LE => 60
  | .OP_EQK => 61
  | .OP_EQI => 62
  | .OP_LTI => 63
  | .OP_LEI => 64
  | .OP_GTI => 65
  | .OP_GEI => 66
  | .OP_TEST => 67
  | .OP_TESTSET => 68
  | .OP_CALL => 69
  | .OP_TAILCALL => 70
  | .OP_RETURN => 71
  | .OP_RETURN0 => 72
  | .OP_RETURN1 => 73
  | .OP_FORLOOP => 74
  | .OP_FORPREP => 75
  | .OP_TFORPREP => 76
  | .OP_TFORCALL => 77
  | .OP_TFORLOOP => 78
  | .OP_TESTNIL => 86
  | .OP_NOP => 100

/-- Shallow embedding of the external `Instruction` word: one constructor per
addressing mode, carrying the decoded operand fields.  Comparison and
three-operand instructions are `iABCk`; `LOADI`-style instructions carry a
signed immediate (`iAsBx`); `FORLOOP`-style instructions carry an unsigned
immediate (`iABx`); jumps carry a signed relative offset (`isJ`). -/
inductive Instr where
  | iABCk (op : OpCode) (a : Int) (b : Int) (c : Int) (k : Bool)
  | iABx (op : OpCode) (a : Int) (bx : Int)
  | iAsBx (op : OpCode) (a : Int) (sbx : Int)
  | isJ (op : OpCode) (sj : Int) (k : Bool)
  deriving DecidableEq, Repr

instance : Inhabited Instr := ⟨.iABCk .OP_NOP 0 0 0 false⟩

/-- Excess bias of the signed jump operand in the external encoding
(`OFFSET_sJ`).  Modelled from the spec: the instruction model is an external
collaborator with a signed relative-jump operand; the bias value is the one
of the reference encoding this repository builds on.  A raw jump field `r`
decodes to the offset `r - OFFSET_sJ`. -/
def OFFSET_sJ : Int := 16777215

/-- `GET_OPCODE` of the external instruction model. -/
def GET_OPCODE : Instr → OpCode
  | .iABCk op _ _ _ _ => op
  | .iABx op _ _ => op
  | .iAsBx op _ _ => op
  | .isJ op _ _ => op

/-- `GETARG_sJ`: decoded signed jump offset (0 on non-jump shapes, which the
source never queries). -/
def GETARG_sJ : Instr → Int
  | .isJ _ sj _ => sj
  | _ => 0

/-- `SETARG_sJ`: replace the signed jump offset of a jump-shaped word (the
source only ever patches words it emitted as jumps). -/
def SETARG_sJ : Instr → Int → Instr
  | .isJ op _ k, sj => .isJ op sj k
  | i, _ => i

/-- `GETARG_Bx` (unsigned large immediate; 0 on other shapes). -/
def GETARG_Bx : Instr → Int
  | .iABx _ _ bx => bx
  | _ => 0

/-- `CREATE_sJ(op, raw, k)`: the stored signed offset is the raw field minus
the excess bias, so a placeholder emitted as `CREATE_sJ(OP_JMP, 0, 0)`
carries offset `-OFFSET_sJ`. -/
def CREATE_sJ (op : OpCode) (raw : Int) (k : Bool) : Instr :=
  .isJ op (raw - OFFSET_sJ) k

/-- `int2sC` of the external model: the excess encoding applied by `int2sC`
is cancelled by the matching `GETARG_sC`, so the embedding is the
identity. -/
def int2sC (x : Int) : Int := x

/-- `CREATE_ABCk`. -/
def CREATE_ABCk (op : OpCode) (a b c : Int) (k : Bool) : Instr :=
  .iABCk op a b c k

/-- `CREATE_ABx(op, a, v + OFFSET_sBx)` as used by the source for signed
immediates: the excess bias cancels against `GETARG_sBx`, so the embedding
stores the signed immediate directly. -/
def CREATE_ABx_sBx (op : OpCode) (a : Int) (sbx : Int) : Instr :=
  .iAsBx op a sbx

/-- `luaO_isBlockTerminator` from `lobfuscate.c`. -/
def luaO_isBlockTerminator (op : OpCode) : Bool :=
  match op with
  | .OP_JMP | .OP_EQ | .OP_LT | .OP_LE | .OP_EQK | .OP_EQI | .OP_LTI
  | .OP_LEI | .OP_GTI | .OP_GEI | .OP_TEST | .OP_TESTSET | .OP_TESTNIL
  | .OP_RETURN | .OP_RETURN0 | .OP_RETURN1 | .OP_TAILCALL
  | .OP_FORLOOP | .OP_FORPREP | .OP_TFORPREP | .OP_TFORLOOP
  | .OP_TFORCALL => true
  | _ => false

/-- `luaO_isJumpInstruction` from `lobfuscate.c`. -/
def luaO_isJumpInstruction (op : OpCode) : Bool :=
  match op with
  | .OP_JMP | .OP_FORLOOP | .OP_FORPREP | .OP_TFORPREP
  | .OP_TFORLOOP => true
  | _ => false

/-- `isConditionalTest` from `lobfuscate.c`. -/
def isConditionalTest (op : OpCode) : Bool :=
  match op with
  | .OP_EQ | .OP_LT | .OP_LE | .OP_EQK | .OP_EQI | .OP_LTI | .OP_LEI
  | .OP_GTI | .OP_GEI | .OP_TEST | .OP_TESTSET | .OP_TESTNIL => true
  | _ => false

/-- `isReturnInstruction` from `lobfuscate.c`. -/
def isReturnInstruction (op : OpCode) : Bool :=
  match op with
  | .OP_RETURN | .OP_RETURN0 | .OP_RETURN1 | .OP_TAILCALL => true
  | _ => false

/-- `luaO_getJumpTarget` from `lobfuscate.c`. -/
def luaO_getJumpTarget (inst : Instr) (pc : Int) : Int :=
  match GET_OPCODE inst with
  | .OP_JMP => pc + 1 + GETARG_sJ inst
  | .OP_FORLOOP | .OP_TFORLOOP => pc + 1 - GETARG_Bx inst
  | .OP_FORPREP | .OP_TFORPREP => pc + 1 + GETARG_Bx inst
  | _ => -1

/-- The `BasicBlock` record of `lobfuscate.h`: pc bounds are array indices
(non-negative in every reachable state, hence `Nat`); block references carry
the `-1` sentinel of the source and stay `Int`; the `int` flags `is_entry`
and `is_exit` hold only 0/1 and are embedded as `Bool`. -/
structure BasicBlock where
  start_pc : Nat
  end_pc : Nat
  state_id : Int
  original_target : Int
  fall_through : Int
  cond_target : Int
  is_entry : Bool
  is_exit : Bool
  deriving DecidableEq, Repr

instance : Inhabited BasicBlock :=
  ⟨{ start_pc := 0, end_pc := 0, state_id := 0, original_target := -1,
     fall_through := -1, cond_target := -1, is_entry := false,
     is_exit := false }⟩

/-- `addBlock` from `lobfuscate.c` (capacity management elided): append a
block whose `state_id` is its index and whose `is_entry` flag records
`start_pc == 0`. -/
def addBlock (blocks : List BasicBlock) (s e : Nat) : List BasicBlock :=
  blocks ++ [{ start_pc := s, end_pc := e, state_id := (blocks.length : Int),
               original_target := -1, fall_through := -1, cond_target := -1,
               is_entry := decide (s = 0), is_exit := false }]

/-- `findBlockStartingAt` from `lobfuscate.c`: index of the first block
starting at `pc`, `-1` when none does. -/
def findBlockStartingAt (blocks : List BasicBlock) (pc : Int) : Int :=
  match blocks.findIdx? (fun b => (b.start_pc : Int) == pc) with
  | some i => (i : Int)
  | none => -1

/-- First pass of `luaO_identifyBlocks`: the per-pc leader marking.  A jump
marks its in-range target, and (unless it is an unconditional `JMP`) the
following pc; a conditional test marks the pc after its paired jump; a
return marks the following pc. -/
def leaderStep (code : List Instr) (n : Nat) (ld : List Bool) (pc : Nat) :
    List Bool :=
  let inst := code.getD pc default
  let op := GET_OPCODE inst
  let ld :=
    if luaO_isJumpInstruction op then
      let t := luaO_getJumpTarget inst (pc : Int)
      let ld := if 0 ≤ t ∧ t < (n : Int) then ld.set t.toNat true else ld
      if pc + 1 < n ∧ op ≠ .OP_JMP then ld.set (pc + 1) true else ld
    else ld
  let ld :=
    if isConditionalTest op then
      if pc + 2 < n then ld.set (pc + 2) true else ld
    else ld
  if isReturnInstruction op then
    if pc + 1 < n then ld.set (pc + 1) true else ld
  else ld

/-- Leader marking of `luaO_identifyBlocks`: pc 0 is always a leader, then
every pc is scanned in order. -/
def computeLeaders (code : List Instr) : List Bool :=
  let n := code.length
  (List.range n).foldl (leaderStep code n) ((List.replicate n false).set 0 true)

/-- Second pass of `luaO_identifyBlocks`: cut a block at every leader and at
the end of the code. -/
def splitStep (n : Nat) (ld : List Bool) (st : List BasicBlock × Nat)
    (pc : Nat) : List BasicBlock × Nat :=
  if pc = n ∨ ld.getD pc false then (addBlock st.1 st.2 pc, pc) else st

/-- Partition `[0, n)` into blocks between consecutive leaders (the source
loop runs `pc` from 1 to `n` inclusive). -/
def splitBlocks (n : Nat) (ld : List Bool) : List BasicBlock :=
  ((List.range' 1 n).foldl (splitStep n ld) ([], 0)).1

/-- Third pass of `luaO_identifyBlocks`: classify the final instruction of a
block and populate `is_exit`, `original_target`, `fall_through` and
`cond_target`.  `blocks` is the full block list used for the
`findBlockStartingAt` lookups (that pass only rewrites edge fields, never
the `start_pc` keys it searches). -/
def analyzeBlock (code : List Instr) (blocks : List BasicBlock)
    (block : BasicBlock) : BasicBlock :=
  let n := code.length
  let last_pc : Int := (block.end_pc : Int) - 1
  if last_pc < 0 ∨ (n : Int) ≤ last_pc then block else
  let inst := code.getD last_pc.toNat default
  let op := GET_OPCODE inst
  let block := if isReturnInstruction op then { block with is_exit := true }
               else block
  let block :=
    if luaO_isJumpInstruction op then
      let t := luaO_getJumpTarget inst last_pc
      if 0 ≤ t then
        let block := { block with
                       original_target := findBlockStartingAt blocks t }
        if op ≠ .OP_JMP then
          { block with
            fall_through := findBlockStartingAt blocks (block.end_pc : Int) }
        else block
      else block
    else block
  let block :=
    if isConditionalTest op then
      { block with
        cond_target := findBlockStartingAt blocks (last_pc + 2),
        fall_through := findBlockStartingAt blocks (block.end_pc : Int) }
    else block
  if ¬ luaO_isBlockTerminator op ∧ block.end_pc < n then
    { block with
      fall_through := findBlockStartingAt blocks (block.end_pc : Int) }
  else block

/-- `luaO_identifyBlocks` from `lobfuscate.c`: fails (returns `-1`) on empty
code, otherwise produces the analyzed block list.  Allocation failures are
not modelled. -/
def luaO_identifyBlocks (code : List Instr) : Option (List BasicBlock) :=
  if code.length = 0 then none
  else
    let ld := computeLeaders code
    let blocks := splitBlocks code.length ld
    some (blocks.map (analyzeBlock code blocks))

/-- Blocks `l` tile the half-open interval `[a, b)` consecutively: each block
is non-empty, starts where its predecessor ended, the first starts at `a`
and the last ends at `b`. -/
def coversB : List BasicBlock → Nat → Nat → Bool
  | [], a, b => a == b
  | blk :: rest, a, b =>
      blk.start_pc == a && decide (a < blk.end_pc) && coversB rest blk.end_pc b

/-- Obfuscation flag bits from `lobfuscate.h`. -/
def OBFUSCATE_CFF : Nat := 1

/-- Flag bit `OBFUSCATE_BLOCK_SHUFFLE`. -/
def OBFUSCATE_BLOCK_SHUFFLE : Nat := 2

/-- Flag bit `OBFUSCATE_BOGUS_BLOCKS`. -/
def OBFUSCATE_BOGUS_BLOCKS : Nat := 4

/-- Flag bit `OBFUSCATE_STATE_ENCODE`. -/
def OBFUSCATE_STATE_ENCODE : Nat := 8

/-- Flag bit `OBFUSCATE_NESTED_DISPATCHER`. -/
def OBFUSCATE_NESTED_DISPATCHER : Nat := 16

/-- Flag bit `OBFUSCATE_OPAQUE_PREDICATES`. -/
def OBFUSCATE_OPAQUE_PREDICATES : Nat := 32

/-- Flag bit `OBFUSCATE_FUNC_INTERLEAVE`. -/
def OBFUSCATE_FUNC_INTERLEAVE : Nat := 64

/-- Flag bit `OBFUSCATE_VM_PROTECT`. -/
def OBFUSCATE_VM_PROTECT : Nat := 128

/-- The linear-congruential step `NEXT_RAND` on a 32-bit unsigned seed. -/
def NEXT_RAND (seed : Nat) : Nat := (1664525 * seed + 1013904223) % 2 ^ 32

/-- `luaO_encodeState` from `lobfuscate.c`: `tmod` is C truncated `%` on
`int`; the seed-derived offset is the unsigned remainder. -/
def luaO_encodeState (state : Int) (seed : Nat) : Int :=
  let range : Int := 30000
  let prime : Int := 7919
  let offset : Int := ((seed % 30000 : Nat) : Int)
  let encoded : Int := (Int.tmod (state * prime) range + offset).tmod range
  if encoded < 0 then encoded + range else encoded

/-- `luaO_decodeState` from `lobfuscate.c`: a documented stub returning its
input unchanged. -/
def luaO_decodeState (encoded_state : Int) (seed : Nat) : Int :=
  encoded_state

/-- One iteration of the Fisher-Yates loop in `luaO_shuffleBlocks`: draw the
next seed, pick `j = 1 + seed % i`, and exchange the `state_id` fields of the
blocks at indices `i` and `j`. -/
def shuffleStep (st : List BasicBlock × Nat) (i : Nat) :
    List BasicBlock × Nat :=
  let seed := NEXT_RAND st.2
  let blocks := st.1
  let j := 1 + seed % i
  let temp := (blocks.getD i default).state_id
  let vj := (blocks.getD j default).state_id
  let blocks := blocks.set i { blocks.getD i default with state_id := vj }
  let blocks := blocks.set j { blocks.getD j default with state_id := temp }
  (blocks, seed)

/-- `luaO_shuffleBlocks` from `lobfuscate.c`: no-op with at most two blocks,
otherwise the index runs from `num_blocks - 1` down to 2 and the updated
seed is stored back into the context. -/
def luaO_shuffleBlocks (blocks : List BasicBlock) (seed : Nat) :
    List BasicBlock × Nat :=
  if blocks.length ≤ 2 then (blocks, seed)
  else (List.range' 2 (blocks.length - 2)).reverse.foldl shuffleStep
    (blocks, seed)

/-- `generateBogusInstruction` from `lobfuscate.c`; returns the instruction
together with the advanced seed. -/
def generateBogusInstruction (state_reg : Int) (seed : Nat) : Instr × Nat :=
  let max_reg := state_reg.toNat
  let seed := NEXT_RAND seed
  let inst_type := seed % 4
  let seed := NEXT_RAND seed
  let reg : Int := ((seed % max_reg : Nat) : Int)
  let reg := if reg < 0 then 0 else reg
  let seed := NEXT_RAND seed
  let value : Int := ((seed % 1000 : Nat) : Int) - 500
  if inst_type = 0 then
    (CREATE_ABx_sBx .OP_LOADI reg value, seed)
  else if inst_type = 1 then
    (CREATE_ABCk .OP_ADDI reg reg (int2sC (value.tmod 100)) false, seed)
  else if inst_type = 2 then
    let seed := NEXT_RAND seed
    let src_reg : Int := ((seed % max_reg : Nat) : Int)
    let src_reg := if src_reg < 0 then 0 else src_reg
    (CREATE_ABCk .OP_MOVE reg src_reg 0 false, seed)
  else
    let seed := NEXT_RAND seed
    (CREATE_ABx_sBx .OP_LOADI reg ((seed % 2000 : Nat) : Int), seed)

/-- Inner loop of `emitBogusBlock`: emit `n` random filler instructions. -/
def emitBogusInsts (state_reg : Int) :
    Nat → List Instr × Nat → List Instr × Nat
  | 0, st => st
  | n + 1, (code, seed) =>
      let (inst, seed) := generateBogusInstruction state_reg seed
      emitBogusInsts state_reg n (code ++ [inst], seed)

/-- `emitBogusBlock` from `lobfuscate.c` (defined in the source but never
invoked by `luaO_generateDispatcher`): 3 to 8 filler instructions, a load of
a nearby synthetic state, and a jump back to the dispatcher. -/
def emitBogusBlock (ctx_seed flags : Nat) (state_reg : Int)
    (dispatcher_pc : Nat) (bogus_state : Int) (code : List Instr)
    (seed : Nat) : List Instr × Nat :=
  let seed := NEXT_RAND seed
  let num_insts := 3 + seed % 6
  let (code, seed) := emitBogusInsts state_reg num_insts (code, seed)
  let seed := NEXT_RAND seed
  let next_state : Int := bogus_state + 1 + ((seed % 3 : Nat) : Int)
  let next_state :=
    if flags &&& OBFUSCATE_STATE_ENCODE ≠ 0 then
      luaO_encodeState next_state ctx_seed
    else next_state
  let code := code ++ [CREATE_ABx_sBx .OP_LOADI state_reg next_state]
  let jmp_offset : Int := (dispatcher_pc : Int) - (code.length : Int) - 1
  let code := code ++ [CREATE_sJ .OP_JMP (jmp_offset + OFFSET_sJ) false]
  (code, seed)

/-- Predicate polarity selector from `lobfuscate.h`. -/
inductive OpaquePredicateType where
  | OP_ALWAYS_TRUE
  | OP_ALWAYS_FALSE
  deriving DecidableEq, Repr

/-- `emitAlwaysTruePredicate` from `lobfuscate.c`: one of four
always-true comparison sequences over the two scratch registers. -/
def emitAlwaysTruePredicate (opaque_reg1 opaque_reg2 : Int)
    (code : List Instr) (seed : Nat) : List Instr × Nat :=
  let reg1 := opaque_reg1
  let reg2 := opaque_reg2
  let seed := NEXT_RAND seed
  let variant := seed % 4
  let seed := NEXT_RAND seed
  let random_val : Int := ((seed % 1000 : Nat) : Int) - 500
  let insts : List Instr :=
    if variant = 0 then
      [CREATE_ABx_sBx .OP_LOADI reg1 random_val,
       CREATE_ABCk .OP_MUL reg2 reg1 reg1 false,
       CREATE_ABCk .OP_GEI reg2 (int2sC 0) 0 false]
    else if variant = 1 then
      [CREATE_ABx_sBx .OP_LOADI reg1 random_val,
       CREATE_ABCk .OP_ADDI reg2 reg1 (int2sC 0) false,
       CREATE_ABCk .OP_EQ reg2 reg1 0 false]
    else if variant = 2 then
      [CREATE_ABx_sBx .OP_LOADI reg1 random_val,
       CREATE_ABCk .OP_SHLI reg2 reg1 (int2sC 1) false,
       CREATE_ABCk .OP_SUB reg2 reg2 reg1 false,
       CREATE_ABCk .OP_EQ reg2 reg1 0 false]
    else
      [CREATE_ABx_sBx .OP_LOADI reg1 random_val,
       CREATE_ABCk .OP_SUB reg2 reg1 reg1 false,
       CREATE_ABCk .OP_EQI reg2 (int2sC 0) 0 false]
  (code ++ insts, seed)

/-- `emitAlwaysFalsePredicate` from `lobfuscate.c`. -/
def emitAlwaysFalsePredicate (opaque_reg1 opaque_reg2 : Int)
    (code : List Instr) (seed : Nat) : List Instr × Nat :=
  let reg1 := opaque_reg1
  let reg2 := opaque_reg2
  let seed := NEXT_RAND seed
  let variant := seed % 3
  let seed := NEXT_RAND seed
  let random_val : Int := ((seed % 1000 : Nat) : Int) - 500
  let insts : List Instr :=
    if variant = 0 then
      [CREATE_ABx_sBx .OP_LOADI reg1 random_val,
       CREATE_ABCk .OP_MUL reg2 reg1 reg1 false,
       CREATE_ABCk .OP_LTI reg2 (int2sC 0) 0 false]
    else if variant = 1 then
      [CREATE_ABx_sBx .OP_LOADI reg1 random_val,
       CREATE_ABCk .OP_SUB reg2 reg1 reg1 false,
       CREATE_ABCk .OP_EQI reg2 (int2sC 0) 0 true]
    else
      [CREATE_ABx_sBx .OP_LOADI reg1 random_val,
       CREATE_ABCk .OP_ADDI reg2 reg1 (int2sC 1) false,
       CREATE_ABCk .OP_EQ reg2 reg1 0 false]
  (code ++ insts, seed)

/-- `luaO_emitOpaquePredicate` from `lobfuscate.c` (the emitted-count return
value is recovered from the code lengths and not carried separately). -/
def luaO_emitOpaquePredicate (opaque_reg1 opaque_reg2 : Int)
    (t : OpaquePredicateType) (code : List Instr) (seed : Nat) :
    List Instr × Nat :=
  match t with
  | .OP_ALWAYS_TRUE => emitAlwaysTruePredicate opaque_reg1 opaque_reg2 code seed
  | .OP_ALWAYS_FALSE => emitAlwaysFalsePredicate opaque_reg1 opaque_reg2 code seed

/-- One filler instruction of `emitFakeFunctionBlock`, by template and
position within the block (the seed has already been advanced). -/
def fakeBlockInst (reg_base : Int) (func_type : Nat) (block_idx : Nat)
    (i : Nat) (seed : Nat) : Instr :=
  if func_type = 0 then
    let val : Int := ((seed % 200 : Nat) : Int) - 100
    if i % 4 = 0 then CREATE_ABx_sBx .OP_LOADI reg_base val
    else if i % 4 = 1 then
      CREATE_ABCk .OP_ADDI (reg_base + 1) reg_base (int2sC (val.tmod 50)) false
    else if i % 4 = 2 then
      CREATE_ABCk .OP_MUL reg_base reg_base (reg_base + 1) false
    else CREATE_ABCk .OP_MMBIN reg_base (reg_base + 1) 14 false
  else if func_type = 1 then
    if i % 3 = 0 then
      CREATE_ABCk .OP_MOVE (reg_base + ((i % 2 : Nat) : Int)) reg_base 0 false
    else if i % 3 = 1 then CREATE_ABCk .OP_LEN reg_base (reg_base + 1) 0 false
    else CREATE_ABx_sBx .OP_LOADI reg_base ((seed % 100 : Nat) : Int)
  else if func_type = 2 then
    if i % 3 = 0 then CREATE_ABx_sBx .OP_LOADI reg_base ((seed % 50 : Nat) : Int)
    else if i % 3 = 1 then CREATE_ABCk .OP_MOVE (reg_base + 1) reg_base 0 false
    else CREATE_ABCk .OP_ADD reg_base reg_base (reg_base + 1) false
  else
    if i % 4 = 0 then CREATE_ABx_sBx .OP_LOADI reg_base (block_idx : Int)
    else if i % 4 = 1 then
      CREATE_ABCk .OP_ADDI reg_base reg_base (int2sC 1) false
    else if i % 4 = 2 then CREATE_ABCk .OP_MMBIN reg_base reg_base 6 false
    else CREATE_ABCk .OP_MOVE (reg_base + 1) reg_base 0 false

/-- `emitFakeFunctionBlock` from `lobfuscate.c`: five filler instructions,
advancing the seed once per instruction. -/
def emitFakeFunctionBlock (reg_base : Int) (func_type : Nat)
    (block_idx : Nat) (code : List Instr) (seed : Nat) : List Instr × Nat :=
  (List.range 5).foldl
    (fun st i =>
      let seed := NEXT_RAND st.2
      (st.1 ++ [fakeBlockInst reg_base func_type block_idx i seed], seed))
    (code, seed)

/-- `emitFakeFunction` from `lobfuscate.c`: the guard of one decoy island,
an `EQI` on the function-id register followed by a placeholder jump whose
pc is returned for later patching. -/
def emitFakeFunction (ctx_seed flags : Nat) (func_id_reg : Int)
    (func_id : Nat) (code : List Instr) : List Instr × Nat :=
  let encoded_func_id : Int := (func_id : Int) + 100
  let encoded_func_id :=
    if flags &&& OBFUSCATE_STATE_ENCODE ≠ 0 then
      luaO_encodeState encoded_func_id (ctx_seed ^^^ 0xABCDEF00)
    else encoded_func_id
  let code := code ++ [CREATE_ABCk .OP_EQI func_id_reg
    (int2sC encoded_func_id) 0 true]
  let entry_jmp_pc := code.length
  (code ++ [CREATE_sJ .OP_JMP 0 false], entry_jmp_pc)

/-- Per-block body of `emitFakeFunctionBlocks` for decoy block `b`. -/
def fakeFunctionBlockStep (ctx_seed flags : Nat) (state_reg reg_base : Int)
    (num_real_blocks : Nat) (dispatcher_pc : Nat) (func_id : Nat)
    (st : List Instr × Nat) (b : Nat) : List Instr × Nat :=
  let func_type := func_id % 4
  let (code, seed) := emitFakeFunctionBlock reg_base func_type b st.1 st.2
  let seed := NEXT_RAND seed
  let (next_state, seed) :=
    if b < 4 - 1 then
      ((((func_id + 100) * 10 + b + 1 : Nat) : Int), seed)
    else
      let seed := NEXT_RAND seed
      (((seed % num_real_blocks : Nat) : Int), seed)
  let next_state :=
    if flags &&& OBFUSCATE_STATE_ENCODE ≠ 0 then
      luaO_encodeState next_state ctx_seed
    else next_state
  let code := code ++ [CREATE_ABx_sBx .OP_LOADI state_reg next_state]
  let jmp_offset : Int := (dispatcher_pc : Int) - (code.length : Int) - 1
  let code := code ++ [CREATE_sJ .OP_JMP (jmp_offset + OFFSET_sJ) false]
  (code, seed)

/-- `emitFakeFunctionBlocks` from `lobfuscate.c`: patch the island's entry
jump to the here-recorded first block pc, then emit its four chained decoy
blocks. -/
def emitFakeFunctionBlocks (ctx_seed flags : Nat) (state_reg reg_base : Int)
    (num_real_blocks : Nat) (dispatcher_pc : Nat) (func_id : Nat)
    (entry_jmp_pc : Nat) (code : List Instr) (seed : Nat) :
    List Instr × Nat :=
  let first_block_pc := code.length
  let offset : Int := (first_block_pc : Int) - (entry_jmp_pc : Int) - 1
  let code := code.set entry_jmp_pc
    (SETARG_sJ (code.getD entry_jmp_pc default) offset)
  (List.range 4).foldl
    (fakeFunctionBlockStep ctx_seed flags state_reg reg_base num_real_blocks
      dispatcher_pc func_id)
    (code, seed)

/-- The fields of the C `CFFContext` that `luaO_generateDispatcher` and
`luaO_generateNestedDispatcher` consume (the growable output buffer and the
bookkeeping arrays are explicit in the result instead). -/
structure CFFContext where
  f_code : List Instr
  state_reg : Int
  outer_state_reg : Int
  opaque_reg1 : Int
  opaque_reg2 : Int
  func_id_reg : Int
  blocks : List BasicBlock
  seed : Nat
  obfuscate_flags : Nat
  deriving Repr

/-- Outputs of dispatcher generation: the emitted code, the dispatcher entry
pc, and (surfaced from the source's local bookkeeping arrays, so that the
backpatching discipline can be specified) the recorded placeholder-jump pcs
`all_block_jmp_pcs`, the relocated block starts `all_block_starts`, and the
fake-function guard-jump pcs. -/
structure GenResult where
  new_code : List Instr
  dispatcher_pc : Nat
  all_block_jmp_pcs : List Nat
  all_block_starts : List Nat
  fake_func_jmp_pcs : List Nat
  num_fake_funcs : Nat
  deriving Repr

/-- One comparison-ladder entry of `luaO_generateDispatcher` for a real
block: every third entry is preceded (when opaque predicates are enabled) by
an always-true predicate, a jump over three dead filler instructions, and
the fillers themselves; then the `EQI` on the block's (possibly encoded)
state and a placeholder jump, whose pc is recorded. -/
def dispatchLadderStep (ctx : CFFContext)
    (st : List Instr × List Nat × Nat × Nat) (blk : BasicBlock) :
    List Instr × List Nat × Nat × Nat :=
  let (code, jmp_pcs, opaque_counter, opaque_seed) := st
  let (code, opaque_counter, opaque_seed) :=
    if ctx.obfuscate_flags &&& OBFUSCATE_OPAQUE_PREDICATES ≠ 0 ∧
        3 ≤ opaque_counter then
      let (code, opaque_seed) := luaO_emitOpaquePredicate ctx.opaque_reg1
        ctx.opaque_reg2 .OP_ALWAYS_TRUE code opaque_seed
      let code := code ++ [CREATE_sJ .OP_JMP (3 + OFFSET_sJ) false]
      let (code, opaque_seed) :=
        emitBogusInsts ctx.state_reg 3 (code, opaque_seed)
      (code, 0, opaque_seed)
    else (code, opaque_counter, opaque_seed)
  let opaque_counter := opaque_counter + 1
  let state := blk.state_id
  let state :=
    if ctx.obfuscate_flags &&& OBFUSCATE_STATE_ENCODE ≠ 0 then
      luaO_encodeState state ctx.seed
    else state
  let code := code ++ [CREATE_ABCk .OP_EQI ctx.state_reg (int2sC state) 0 true]
  let jmp_pc := code.length
  let code := code ++ [CREATE_sJ .OP_JMP 0 false]
  (code, jmp_pcs ++ [jmp_pc], opaque_counter, opaque_seed)

/-- One comparison-ladder entry for a synthetic (bogus) state: the `EQI` and
a placeholder jump, whose pc is recorded after the real blocks. -/
def bogusLadderStep (ctx : CFFContext) (st : List Instr × List Nat)
    (state : Int) : List Instr × List Nat :=
  let (code, jmp_pcs) := st
  let state :=
    if ctx.obfuscate_flags &&& OBFUSCATE_STATE_ENCODE ≠ 0 then
      luaO_encodeState state ctx.seed
    else state
  let code := code ++ [CREATE_ABCk .OP_EQI ctx.state_reg (int2sC state) 0 true]
  let jmp_pc := code.length
  let code := code ++ [CREATE_sJ .OP_JMP 0 false]
  (code, jmp_pcs ++ [jmp_pc])

/-- Relocated body and state-transition epilogue for one real block, as
emitted by `luaO_generateDispatcher`: copy the block minus its trailing
control instructions, then (by exit shape) the verbatim return, the
conditional two-way state assignment, or the single successor state
assignment with a jump back to the dispatcher. -/
def emitBlockBody (ctx : CFFContext) (dispatcher_pc : Nat)
    (st : List Instr × List Nat) (block : BasicBlock) :
    List Instr × List Nat :=
  let f_code := ctx.f_code
  let (code, starts) := st
  let starts := starts ++ [code.length]
  let last_pc : Int := (block.end_pc : Int) - 1
  let last_op :=
    if (block.start_pc : Int) ≤ last_pc then
      GET_OPCODE (f_code.getD last_pc.toNat default)
    else .OP_NOP
  let has_cond_test :=
    (block.start_pc : Int) ≤ last_pc ∧ last_op = .OP_JMP ∧
      (block.start_pc : Int) < last_pc ∧
      isConditionalTest
        (GET_OPCODE (f_code.getD (last_pc - 1).toNat default)) = true
  let cond_test_pc : Int := last_pc - 1
  let copy_end : Nat :=
    if has_cond_test then cond_test_pc.toNat
    else if last_op = .OP_JMP then block.end_pc - 1
    else block.end_pc
  let code := code ++ ((f_code.drop block.start_pc).take
    (copy_end - block.start_pc))
  if block.is_exit then
    let code :=
      if copy_end < block.end_pc then
        code ++ ((f_code.drop copy_end).take (block.end_pc - copy_end))
      else code
    (code, starts)
  else if has_cond_test then
    let cond_inst := f_code.getD cond_test_pc.toNat default
    let code := code ++ [cond_inst]
    let orig_jmp := f_code.getD last_pc.toNat default
    let orig_jmp_target := luaO_getJumpTarget orig_jmp last_pc
    let else_block := findBlockStartingAt ctx.blocks orig_jmp_target
    let then_block := findBlockStartingAt ctx.blocks (last_pc + 1)
    let then_block := if then_block < 0 then block.fall_through else then_block
    let then_state :=
      if 0 ≤ then_block then
        (ctx.blocks.getD then_block.toNat default).state_id
      else 0
    let else_state :=
      if 0 ≤ else_block then
        (ctx.blocks.getD else_block.toNat default).state_id
      else 0
    let then_state :=
      if ctx.obfuscate_flags &&& OBFUSCATE_STATE_ENCODE ≠ 0 then
        luaO_encodeState then_state ctx.seed
      else then_state
    let else_state :=
      if ctx.obfuscate_flags &&& OBFUSCATE_STATE_ENCODE ≠ 0 then
        luaO_encodeState else_state ctx.seed
      else else_state
    let code := code ++ [CREATE_sJ .OP_JMP (2 + OFFSET_sJ) false]
    let code := code ++ [CREATE_ABx_sBx .OP_LOADI ctx.state_reg then_state]
    let jmp_offset1 : Int := (dispatcher_pc : Int) - (code.length : Int) - 1
    let code := code ++ [CREATE_sJ .OP_JMP (jmp_offset1 + OFFSET_sJ) false]
    let code := code ++ [CREATE_ABx_sBx .OP_LOADI ctx.state_reg else_state]
    let jmp_offset2 : Int := (dispatcher_pc : Int) - (code.length : Int) - 1
    let code := code ++ [CREATE_sJ .OP_JMP (jmp_offset2 + OFFSET_sJ) false]
    (code, starts)
  else
    let next_state : Int :=
      if 0 ≤ block.original_target then
        (ctx.blocks.getD block.original_target.toNat default).state_id
      else if 0 ≤ block.fall_through then
        (ctx.blocks.getD block.fall_through.toNat default).state_id
      else -1
    if 0 ≤ next_state then
      let next_state :=
        if ctx.obfuscate_flags &&& OBFUSCATE_STATE_ENCODE ≠ 0 then
          luaO_encodeState next_state ctx.seed
        else next_state
      let code := code ++ [CREATE_ABx_sBx .OP_LOADI ctx.state_reg next_state]
      let jmp_offset : Int := (dispatcher_pc : Int) - (code.length : Int) - 1
      let code := code ++ [CREATE_sJ .OP_JMP (jmp_offset + OFFSET_sJ) false]
      (code, starts)
    else (code, starts)

/-- Final backpatch pass of `luaO_generateDispatcher`: for each of the first
`num_blocks` recorded placeholder pcs (and only those), rewrite the jump's
offset to reach the block's recorded relocated start. -/
def patchRealJumps (code : List Instr) (jmp_pcs starts : List Nat)
    (num_blocks : Nat) : List Instr :=
  (List.range num_blocks).foldl
    (fun code i =>
      let jmp_pc := jmp_pcs.getD i 0
      let target_pc := starts.getD i 0
      let offset : Int := (target_pc : Int) - (jmp_pc : Int) - 1
      code.set jmp_pc (SETARG_sJ (code.getD jmp_pc default) offset))
    code

/-- `luaO_generateDispatcher` from `lobfuscate.c`, phase by phase: state
initialization, optional function-id initialization, the comparison ladder
over real then bogus states, optional fake-function guards, the fallback
loop jump, the relocated block bodies, the backpatch pass over the real
blocks, and finally the fake-function decoy blocks. -/
def luaO_generateDispatcher (ctx : CFFContext) : GenResult :=
  if ctx.blocks.length = 0 then
    { new_code := [], dispatcher_pc := 0, all_block_jmp_pcs := [],
      all_block_starts := [], fake_func_jmp_pcs := [], num_fake_funcs := 0 }
  else
    let num_bogus_blocks :=
      if ctx.obfuscate_flags &&& OBFUSCATE_BOGUS_BLOCKS ≠ 0 then
        ctx.blocks.length * 2
      else 0
    let entry_state :=
      match ctx.blocks.find? (fun b => b.is_entry) with
      | some b => b.state_id
      | none => 0
    let entry_state :=
      if ctx.obfuscate_flags &&& OBFUSCATE_STATE_ENCODE ≠ 0 then
        luaO_encodeState entry_state ctx.seed
      else entry_state
    let code : List Instr :=
      [CREATE_ABx_sBx .OP_LOADI ctx.state_reg entry_state]
    let num_fake_funcs :=
      if ctx.obfuscate_flags &&& OBFUSCATE_FUNC_INTERLEAVE ≠ 0 then 3 else 0
    let code :=
      if ctx.obfuscate_flags &&& OBFUSCATE_FUNC_INTERLEAVE ≠ 0 then
        code ++ [CREATE_ABx_sBx .OP_LOADI ctx.func_id_reg 0]
      else code
    let dispatcher_pc := code.length
    let bogus_states : List Int :=
      (List.range num_bogus_blocks).map
        (fun i => ((ctx.blocks.length + i : Nat) : Int))
    let opaque_seed := ctx.seed ^^^ 0xDEADBEEF
    let (code, real_jmp_pcs, _, _) :=
      ctx.blocks.foldl (dispatchLadderStep ctx) (code, [], 0, opaque_seed)
    let (code, all_jmp_pcs) :=
      bogus_states.foldl (bogusLadderStep ctx) (code, real_jmp_pcs)
    let (code, fake_func_jmp_pcs) :=
      if ctx.obfuscate_flags &&& OBFUSCATE_FUNC_INTERLEAVE ≠ 0 then
        (List.range num_fake_funcs).foldl
          (fun st f =>
            let (code, pc) := emitFakeFunction ctx.seed ctx.obfuscate_flags
              ctx.func_id_reg f st.1
            (code, st.2 ++ [pc]))
          (code, [])
      else (code, [])
    let dispatcher_end := code.length
    let code := code ++ [CREATE_sJ .OP_JMP
      ((dispatcher_pc : Int) - (dispatcher_end : Int) - 1 + OFFSET_sJ) false]
    let (code, all_block_starts) :=
      ctx.blocks.foldl (emitBlockBody ctx dispatcher_pc) (code, [])
    let code := patchRealJumps code all_jmp_pcs all_block_starts
      ctx.blocks.length
    let (code, _) :=
      if ctx.obfuscate_flags &&& OBFUSCATE_FUNC_INTERLEAVE ≠ 0 then
        let fake_seed := ctx.seed ^^^ 0xFEEDFACE
        (List.range num_fake_funcs).foldl
          (fun st f =>
            emitFakeFunctionBlocks ctx.seed ctx.obfuscate_flags ctx.state_reg
              ctx.opaque_reg1 ctx.blocks.length dispatcher_pc f
              (fake_func_jmp_pcs.getD f 0) st.1 st.2)
          (code, fake_seed)
      else (code, 0)
    { new_code := code, dispatcher_pc := dispatcher_pc,
      all_block_jmp_pcs := all_jmp_pcs, all_block_starts := all_block_starts,
      fake_func_jmp_pcs := fake_func_jmp_pcs,
      num_fake_funcs := num_fake_funcs }

/-- `partitionBlocksIntoGroups` from `lobfuscate.c`: contiguous groups of at
most `NESTED_GROUP_SIZE = 4` original indices, at least two groups, with a
trailing end marker. -/
def partitionBlocksIntoGroups (num_blocks : Nat) : Nat × List Nat :=
  if num_blocks = 0 then (0, [])
  else
    let num_groups := (num_blocks + 4 - 1) / 4
    let num_groups := if num_groups < 2 then 2 else num_groups
    let blocks_per_group := (num_blocks + num_groups - 1) / num_groups
    let group_starts := (List.range num_groups).map
      (fun g => min (g * blocks_per_group) num_blocks)
    (num_groups, group_starts ++ [num_blocks])

/-- `findBlockGroup` from `lobfuscate.c`. -/
def findBlockGroup (num_groups : Nat) (group_starts : List Nat)
    (block_idx : Nat) : Nat :=
  match (List.range num_groups).find?
    (fun g => group_starts.getD g 0 ≤ block_idx ∧
              block_idx < group_starts.getD (g + 1) 0) with
  | some g => g
  | none => 0

/-- One outer-ladder entry of `luaO_generateNestedDispatcher`: `EQI` on the
outer state register against the (possibly encoded) group index, then a
placeholder jump to the group's inner dispatcher. -/
def outerLadderStep (ctx : CFFContext) (st : List Instr × List Nat)
    (g : Nat) : List Instr × List Nat :=
  let (code, group_jmp_pcs) := st
  let outer_state : Int :=
    if ctx.obfuscate_flags &&& OBFUSCATE_STATE_ENCODE ≠ 0 then
      luaO_encodeState (g : Int) ctx.seed
    else (g : Int)
  let code := code ++ [CREATE_ABCk .OP_EQI ctx.outer_state_reg
    (int2sC outer_state) 0 true]
  let jmp_pc := code.length
  let code := code ++ [CREATE_sJ .OP_JMP 0 false]
  (code, group_jmp_pcs ++ [jmp_pc])

/-- Inner ladder of group `g` in `luaO_generateNestedDispatcher`: patch the
outer jump to here, emit one `EQI` plus placeholder jump per block of the
group, and close with the default jump back to the outer dispatcher. -/
def innerDispatcherStep (ctx : CFFContext) (outer_dispatcher_pc : Nat)
    (group_starts : List Nat) (group_jmp_pcs : List Nat)
    (st : List Instr × List Nat) (g : Nat) : List Instr × List Nat :=
  let (code, block_jmp_pcs) := st
  let inner_pc := code.length
  let gj := group_jmp_pcs.getD g 0
  let offset : Int := (inner_pc : Int) - (gj : Int) - 1
  let code := code.set gj (SETARG_sJ (code.getD gj default) offset)
  let group_start := group_starts.getD g 0
  let group_end := group_starts.getD (g + 1) 0
  let (code, block_jmp_pcs) :=
    (List.range' group_start (group_end - group_start)).foldl
      (fun st i =>
        let (code, jmp_pcs) := st
        let inner_state := (ctx.blocks.getD i default).state_id
        let inner_state :=
          if ctx.obfuscate_flags &&& OBFUSCATE_STATE_ENCODE ≠ 0 then
            luaO_encodeState inner_state (ctx.seed ^^^ 0x12345678)
          else inner_state
        let code := code ++ [CREATE_ABCk .OP_EQI ctx.state_reg
          (int2sC inner_state) 0 true]
        let jmp_pc := code.length
        let code := code ++ [CREATE_sJ .OP_JMP 0 false]
        (code, jmp_pcs ++ [jmp_pc]))
      (code, block_jmp_pcs)
  let inner_default_jmp_pc := code.length
  let code := code ++ [CREATE_sJ .OP_JMP
    ((outer_dispatcher_pc : Int) - (inner_default_jmp_pc : Int) - 1 +
      OFFSET_sJ) false]
  (code, block_jmp_pcs)

/-- Relocated body with two-level state epilogue for one block of
`luaO_generateNestedDispatcher`; the block's inner-ladder jump is patched
when its start is recorded. -/
def emitNestedBlockBody (ctx : CFFContext) (outer_dispatcher_pc : Nat)
    (num_groups : Nat) (group_starts : List Nat) (block_jmp_pcs : List Nat)
    (st : List Instr × Nat) (block : BasicBlock) : List Instr × Nat :=
  let f_code := ctx.f_code
  let (code, i) := st
  let block_start := code.length
  let bj := block_jmp_pcs.getD i 0
  let offset : Int := (block_start : Int) - (bj : Int) - 1
  let code := code.set bj (SETARG_sJ (code.getD bj default) offset)
  let last_pc : Int := (block.end_pc : Int) - 1
  let last_op :=
    if (block.start_pc : Int) ≤ last_pc then
      GET_OPCODE (f_code.getD last_pc.toNat default)
    else .OP_NOP
  let has_cond_test :=
    (block.start_pc : Int) ≤ last_pc ∧ last_op = .OP_JMP ∧
      (block.start_pc : Int) < last_pc ∧
      isConditionalTest
        (GET_OPCODE (f_code.getD (last_pc - 1).toNat default)) = true
  let cond_test_pc : Int := last_pc - 1
  let copy_end : Nat :=
    if has_cond_test then cond_test_pc.toNat
    else if last_op = .OP_JMP then block.end_pc - 1
    else block.end_pc
  let code := code ++ ((f_code.drop block.start_pc).take
    (copy_end - block.start_pc))
  let code :=
    if block.is_exit then
      if copy_end < block.end_pc then
        code ++ ((f_code.drop copy_end).take (block.end_pc - copy_end))
      else code
    else if has_cond_test then
      let cond_inst := f_code.getD cond_test_pc.toNat default
      let code := code ++ [cond_inst]
      let orig_jmp := f_code.getD last_pc.toNat default
      let orig_jmp_target := luaO_getJumpTarget orig_jmp last_pc
      let else_block := findBlockStartingAt ctx.blocks orig_jmp_target
      let then_block := findBlockStartingAt ctx.blocks (last_pc + 1)
      let then_block :=
        if then_block < 0 then block.fall_through else then_block
      let then_group : Int :=
        if 0 ≤ then_block then
          (findBlockGroup num_groups group_starts then_block.toNat : Int)
        else 0
      let else_group : Int :=
        if 0 ≤ else_block then
          (findBlockGroup num_groups group_starts else_block.toNat : Int)
        else 0
      let then_inner :=
        if 0 ≤ then_block then
          (ctx.blocks.getD then_block.toNat default).state_id
        else 0
      let else_inner :=
        if 0 ≤ else_block then
          (ctx.blocks.getD else_block.toNat default).state_id
        else 0
      let (then_group, else_group, then_inner, else_inner) :=
        if ctx.obfuscate_flags &&& OBFUSCATE_STATE_ENCODE ≠ 0 then
          (luaO_encodeState then_group ctx.seed,
           luaO_encodeState else_group ctx.seed,
           luaO_encodeState then_inner (ctx.seed ^^^ 0x12345678),
           luaO_encodeState else_inner (ctx.seed ^^^ 0x12345678))
        else (then_group, else_group, then_inner, else_inner)
      let code := code ++ [CREATE_sJ .OP_JMP (3 + OFFSET_sJ) false]
      let code := code ++
        [CREATE_ABx_sBx .OP_LOADI ctx.outer_state_reg then_group]
      let code := code ++ [CREATE_ABx_sBx .OP_LOADI ctx.state_reg then_inner]
      let jmp_offset1 : Int :=
        (outer_dispatcher_pc : Int) - (code.length : Int) - 1
      let code := code ++ [CREATE_sJ .OP_JMP (jmp_offset1 + OFFSET_sJ) false]
      let code := code ++
        [CREATE_ABx_sBx .OP_LOADI ctx.outer_state_reg else_group]
      let code := code ++ [CREATE_ABx_sBx .OP_LOADI ctx.state_reg else_inner]
      let jmp_offset2 : Int :=
        (outer_dispatcher_pc : Int) - (code.length : Int) - 1
      code ++ [CREATE_sJ .OP_JMP (jmp_offset2 + OFFSET_sJ) false]
    else
      let next_block : Int :=
        if 0 ≤ block.original_target then block.original_target
        else block.fall_through
      if 0 ≤ next_block then
        let next_group : Int :=
          (findBlockGroup num_groups group_starts next_block.toNat : Int)
        let next_inner :=
          (ctx.blocks.getD next_block.toNat default).state_id
        let (next_group, next_inner) :=
          if ctx.obfuscate_flags &&& OBFUSCATE_STATE_ENCODE ≠ 0 then
            (luaO_encodeState next_group ctx.seed,
             luaO_encodeState next_inner (ctx.seed ^^^ 0x12345678))
          else (next_group, next_inner)
        let code := code ++
          [CREATE_ABx_sBx .OP_LOADI ctx.outer_state_reg next_group]
        let code := code ++
          [CREATE_ABx_sBx .OP_LOADI ctx.state_reg next_inner]
        let jmp_offset : Int :=
          (outer_dispatcher_pc : Int) - (code.length : Int) - 1
        code ++ [CREATE_sJ .OP_JMP (jmp_offset + OFFSET_sJ) false]
      else code
  (code, i + 1)

/-- `luaO_generateNestedDispatcher` from `lobfuscate.c`: a two-level state
machine (outer ladder over groups, inner ladders over the groups' blocks,
two-register epilogues), with each placeholder patched as its target is
emitted. -/
def luaO_generateNestedDispatcher (ctx : CFFContext) : GenResult :=
  if ctx.blocks.length = 0 then
    { new_code := [], dispatcher_pc := 0, all_block_jmp_pcs := [],
      all_block_starts := [], fake_func_jmp_pcs := [], num_fake_funcs := 0 }
  else
    let (num_groups, group_starts) :=
      partitionBlocksIntoGroups ctx.blocks.length
    let entry_block :=
      match (List.range ctx.blocks.length).find?
        (fun i => (ctx.blocks.getD i default).is_entry) with
      | some i => i
      | none => 0
    let entry_group := findBlockGroup num_groups group_starts entry_block
    let entry_inner_state := (ctx.blocks.getD entry_block default).state_id
    let (initial_outer, initial_inner) :=
      if ctx.obfuscate_flags &&& OBFUSCATE_STATE_ENCODE ≠ 0 then
        (luaO_encodeState (entry_group : Int) ctx.seed,
         luaO_encodeState entry_inner_state (ctx.seed ^^^ 0x12345678))
      else ((entry_group : Int), entry_inner_state)
    let code : List Instr :=
      [CREATE_ABx_sBx .OP_LOADI ctx.outer_state_reg initial_outer,
       CREATE_ABx_sBx .OP_LOADI ctx.state_reg initial_inner]
    let outer_dispatcher_pc := code.length
    let (code, group_jmp_pcs) :=
      (List.range num_groups).foldl (outerLadderStep ctx) (code, [])
    let outer_loop_jmp_pc := code.length
    let code := code ++ [CREATE_sJ .OP_JMP
      ((outer_dispatcher_pc : Int) - (outer_loop_jmp_pc : Int) - 1 +
        OFFSET_sJ) false]
    let (code, block_jmp_pcs) :=
      (List.range num_groups).foldl
        (innerDispatcherStep ctx outer_dispatcher_pc group_starts
          group_jmp_pcs)
        (code, [])
    let (code, _) :=
      ctx.blocks.foldl
        (emitNestedBlockBody ctx outer_dispatcher_pc num_groups group_starts
          block_jmp_pcs)
        (code, 0)
    { new_code := code, dispatcher_pc := outer_dispatcher_pc,
      all_block_jmp_pcs := block_jmp_pcs, all_block_starts := [],
      fake_func_jmp_pcs := [], num_fake_funcs := 0 }

/-- The magic number `CFF_MAGIC`. -/
def CFF_MAGIC : Int := 0x43464600

/-- The metadata version `CFF_VERSION`. -/
def CFF_VERSION : Int := 1

/-- The fields of the host `Proto` that `lobfuscate.c` reads or writes,
plus `id`, standing for the `Proto*` pointer identity that keys the VM
side table, and the `vm_code_table` back-pointer (`none` when unset). -/
structure Proto where
  code : List Instr
  maxstacksize : Int
  difierline_mode : Nat
  difierline_magicnum : Int
  difierline_data : Nat
  id : Nat
  vm_code_table : Option Nat
  deriving DecidableEq, Repr

/-- The loop-opcode scan at the top of `luaO_flatten`. -/
def hasLoopOpcode (code : List Instr) : Bool :=
  code.any (fun i =>
    match GET_OPCODE i with
    | .OP_FORLOOP | .OP_FORPREP | .OP_TFORPREP | .OP_TFORLOOP
    | .OP_TFORCALL => true
    | _ => false)

/-- `NUM_OPCODES` of the external opcode enumeration (the length of the
source's opcode-name table). -/
def NUM_OPCODES : Nat := 102

/-- `VM_OP_COUNT`: number of synthetic VM opcodes in `lobfuscate.h`. -/
def VM_OP_COUNT : Nat := 47

/-- Synthetic opcode `VM_OP_NOP`. -/
def VM_OP_NOP : Int := 0

/-- Synthetic opcode `VM_OP_HALT`. -/
def VM_OP_HALT : Int := 46

/-- C conversion of a (possibly negative) `int` value to `uint64_t`:
reduction modulo `2^64`. -/
def intToU64 (x : Int) : Nat := (x % 2 ^ 64).toNat

/-- `VM_MAKE_INST` from `lobfuscate.h`: pack opcode and operands into one
64-bit word (each shifted field wraps modulo `2^64` as the C `uint64_t`
shifts do). -/
def VM_MAKE_INST (op a b c flags : Int) : Nat :=
  ((intToU64 op <<< 56) % 2 ^ 64) ||| ((intToU64 a <<< 40) % 2 ^ 64) |||
    ((intToU64 b <<< 24) % 2 ^ 64) ||| ((intToU64 c <<< 8) % 2 ^ 64) |||
    intToU64 flags

/-- `encryptVMInstruction` from `lobfuscate.c`: XOR with the key, rotate
left by `pc % 64`, XOR with the position-modified key.  The C shift pair is
modelled as the mathematical 64-bit rotation (for a zero amount both
realized behaviours reduce to the identity). -/
def encryptVMInstruction (inst key : Nat) (pc : Nat) : Nat :=
  let encrypted := inst ^^^ key
  let rotate_amount := pc % 64
  let encrypted := ((encrypted <<< rotate_amount) % 2 ^ 64) |||
    (encrypted >>> (64 - rotate_amount))
  let modified_key := key ^^^ ((pc * 0x9E3779B97F4A7C15) % 2 ^ 64)
  encrypted ^^^ modified_key

/-- `decryptVMInstruction` from `lobfuscate.c`: undo the second XOR, rotate
right by `pc % 64`, undo the first XOR. -/
def decryptVMInstruction (inst key : Nat) (pc : Nat) : Nat :=
  let modified_key := key ^^^ ((pc * 0x9E3779B97F4A7C15) % 2 ^ 64)
  let decrypted := inst ^^^ modified_key
  let rotate_amount := pc % 64
  let decrypted := (decrypted >>> rotate_amount) |||
    ((decrypted <<< (64 - rotate_amount)) % 2 ^ 64)
  decrypted ^^^ key

/-- The fields of the C `VMProtectContext` the model tracks. -/
structure VMProtectContext where
  encrypt_key : Nat
  opcode_map : List Int
  reverse_map : List Int
  seed : Nat
  deriving Repr

/-- `luaO_initVMContext` from `lobfuscate.c`: derive the 64-bit key from
two LCG draws, then fill the opcode map with `NUM_OPCODES` random synthetic
opcodes and build the (partial) reverse map. -/
def luaO_initVMContext (seed : Nat) : VMProtectContext :=
  let r := NEXT_RAND seed
  let key := r <<< 32
  let r := NEXT_RAND r
  let key := key ||| r
  let r2 := seed ^^^ 0xDEADBEEF
  let (opcode_map, _) :=
    (List.range NUM_OPCODES).foldl
      (fun st _ =>
        let r2 := NEXT_RAND st.2
        (st.1 ++ [((r2 % VM_OP_COUNT : Nat) : Int)], r2))
      (([] : List Int), r2)
  let reverse_map :=
    (List.range NUM_OPCODES).foldl
      (fun rev i =>
        let vm_op := opcode_map.getD i (-1)
        if 0 ≤ vm_op ∧ vm_op < (VM_OP_COUNT : Int) then
          rev.set vm_op.toNat (i : Int)
        else rev)
      (List.replicate VM_OP_COUNT (-1 : Int))
  { encrypt_key := key, opcode_map := opcode_map,
    reverse_map := reverse_map, seed := seed }

/-- `convertLuaInstToVM` from `lobfuscate.c`: map the opcode through the
random table (unmapped opcodes become `VM_OP_NOP`), extract the operands of
the instruction's addressing mode, pack, and encrypt at this pc. -/
def convertLuaInstToVM (opcode_map : List Int) (key : Nat) (inst : Instr)
    (pc : Nat) : Nat :=
  let lua_op := GET_OPCODE inst
  let vm_op := opcode_map.getD (opcodeNum lua_op) (-1)
  let vm_op := if vm_op < 0 then VM_OP_NOP else vm_op
  let abcf : Int × Int × Int × Int :=
    match inst with
    | .iABCk _ a b c k => (a, b, c, if k then 1 else 0)
    | .iABx _ a bx => (a, bx, 0, 0)
    | .iAsBx _ a sbx => (a, sbx, 0, 0)
    | .isJ _ sj _ => (sj, 0, 0, 0)
  let vm_inst := VM_MAKE_INST vm_op abcf.1 abcf.2.1 abcf.2.2.1 abcf.2.2.2
  encryptVMInstruction vm_inst key pc

/-- `luaO_convertToVM` from `lobfuscate.c`: convert every instruction in
order, then append an encrypted `VM_OP_HALT` marker. -/
def luaO_convertToVM (opcode_map : List Int) (key : Nat)
    (code : List Instr) : List Nat :=
  (code.enum.map (fun pi => convertLuaInstToVM opcode_map key pi.2 pi.1)) ++
    [encryptVMInstruction (VM_MAKE_INST VM_OP_HALT 0 0 0 0) key code.length]

/-- The `VMCodeTable` record of `lobfuscate.h`, keyed by the proto's
identity. -/
structure VMCodeTable where
  proto_id : Nat
  code : List Nat
  size : Nat
  capacity : Nat
  encrypt_key : Nat
  reverse_map : List Int
  seed : Nat
  deriving DecidableEq, Repr

/-- `luaO_registerVMCode` from `lobfuscate.c`: copy the buffers into a new
node, push it onto the global list, and point the proto at it. -/
def luaO_registerVMCode (tbl : List VMCodeTable) (p : Proto)
    (code : List Nat) (key : Nat) (reverse_map : List Int) (seed : Nat) :
    List VMCodeTable × Proto :=
  let vt : VMCodeTable :=
    { proto_id := p.id, code := code, size := code.length,
      capacity := code.length, encrypt_key := key,
      reverse_map := reverse_map, seed := seed }
  (vt :: tbl, { p with vm_code_table := some p.id })

/-- `luaO_findVMCode` from `lobfuscate.c` (without the pointer-caching side
effect): the proto's back-pointer wins, else the first list node with this
proto's identity. -/
def luaO_findVMCode (tbl : List VMCodeTable) (p : Proto) :
    Option VMCodeTable :=
  match p.vm_code_table with
  | some pid => tbl.find? (fun vt => vt.proto_id = pid)
  | none => tbl.find? (fun vt => vt.proto_id = p.id)

/-- `luaO_vmProtect` from `lobfuscate.c`: skip functions shorter than 4
instructions; otherwise build the context, convert and encrypt the code,
set the `OBFUSCATE_VM_PROTECT` flag and store the key's low 32 bits in
`difierline_data` - then free the context.  The encrypted buffer is not
registered anywhere and the side table is returned unchanged. -/
def luaO_vmProtect (f : Proto) (seed : Nat) (tbl : List VMCodeTable) :
    Int × Proto × List VMCodeTable :=
  if f.code.length < 4 then (0, f, tbl)
  else
    let ctx := luaO_initVMContext seed
    let _vm_code := luaO_convertToVM ctx.opcode_map ctx.encrypt_key f.code
    let f := { f with
      difierline_mode := f.difierline_mode ||| OBFUSCATE_VM_PROTECT,
      difierline_data :=
        (f.difierline_data &&& 0xFFFFFFFF00000000) |||
          (ctx.encrypt_key &&& 0xFFFFFFFF) }
    (0, f, tbl)

/-- `luaO_flatten` from `lobfuscate.c` (logging and allocation failure
elided; the VM side table is threaded explicitly): the `CFF`-flag gate, the
three eligibility skips, optional shuffle, flat or nested dispatcher
generation, the proto update, and the optional VM-protection pass. -/
def luaO_flatten (f : Proto) (flags : Nat) (seed : Nat)
    (tbl : List VMCodeTable) : Int × Proto × List VMCodeTable :=
  if flags &&& OBFUSCATE_CFF = 0 then
    if flags &&& OBFUSCATE_VM_PROTECT ≠ 0 then
      luaO_vmProtect f (seed ^^^ 0xFEDCBA98) tbl
    else (0, f, tbl)
  else if f.code.length < 4 then (0, f, tbl)
  else if hasLoopOpcode f.code then (0, f, tbl)
  else
    match luaO_identifyBlocks f.code with
    | none => (-1, f, tbl)
    | some blocks =>
      if blocks.length < 2 then (0, f, tbl)
      else
        let state_reg := f.maxstacksize
        let outer_state_reg := f.maxstacksize + 1
        let opaque_reg1 := f.maxstacksize + 2
        let opaque_reg2 := f.maxstacksize + 3
        let func_id_reg := f.maxstacksize + 4
        let (blocks, seed1) :=
          if flags &&& OBFUSCATE_BLOCK_SHUFFLE ≠ 0 then
            luaO_shuffleBlocks blocks seed
          else (blocks, seed)
        let ctx : CFFContext :=
          { f_code := f.code, state_reg := state_reg,
            outer_state_reg := outer_state_reg, opaque_reg1 := opaque_reg1,
            opaque_reg2 := opaque_reg2, func_id_reg := func_id_reg,
            blocks := blocks, seed := seed1, obfuscate_flags := flags }
        let gen :=
          if flags &&& OBFUSCATE_NESTED_DISPATCHER ≠ 0 then
            luaO_generateNestedDispatcher ctx
          else luaO_generateDispatcher ctx
        let max_state_reg := state_reg
        let max_state_reg :=
          if flags &&& OBFUSCATE_NESTED_DISPATCHER ≠ 0 ∧
              max_state_reg < outer_state_reg then outer_state_reg
          else max_state_reg
        let max_state_reg :=
          if flags &&& OBFUSCATE_OPAQUE_PREDICATES ≠ 0 ∧
              max_state_reg < opaque_reg2 then opaque_reg2
          else max_state_reg
        let max_state_reg :=
          if flags &&& OBFUSCATE_FUNC_INTERLEAVE ≠ 0 ∧
              max_state_reg < func_id_reg then func_id_reg
          else max_state_reg
        let new_maxstacksize :=
          if f.maxstacksize ≤ max_state_reg then max_state_reg + 1
          else f.maxstacksize
        let new_mode := f.difierline_mode ||| OBFUSCATE_CFF
        let new_mode :=
          if flags &&& OBFUSCATE_NESTED_DISPATCHER ≠ 0 then
            new_mode ||| OBFUSCATE_NESTED_DISPATCHER
          else new_mode
        let new_mode :=
          if flags &&& OBFUSCATE_OPAQUE_PREDICATES ≠ 0 then
            new_mode ||| OBFUSCATE_OPAQUE_PREDICATES
          else new_mode
        let new_mode :=
          if flags &&& OBFUSCATE_FUNC_INTERLEAVE ≠ 0 then
            new_mode ||| OBFUSCATE_FUNC_INTERLEAVE
          else new_mode
        let f1 : Proto :=
          { f with
            code := gen.new_code
            maxstacksize := new_maxstacksize
            difierline_mode := new_mode
            difierline_magicnum := CFF_MAGIC
            difierline_data := (blocks.length <<< 32) ||| seed1 }
        if flags &&& OBFUSCATE_VM_PROTECT ≠ 0 then
          luaO_vmProtect f1 (seed ^^^ 0xFEDCBA98) tbl
        else (0, f1, tbl)

/-- Execution status of the host VM on one function. -/
inductive ExecMode where
  | running
  | returned
  | crashed
  deriving DecidableEq, Repr

/-- A machine configuration of the host VM: program counter, register file,
and status. -/
structure VMCfg where
  pc : Nat
  regs : List Int
  mode : ExecMode
  deriving DecidableEq, Repr

/-- Register read (registers hold the function's integer values here). -/
def readReg (regs : List Int) (r : Int) : Int := regs.getD r.toNat 0

/-- Register write. -/
def writeReg (regs : List Int) (r : Int) (v : Int) : List Int :=
  regs.set r.toNat v

/-- Modelled from the spec: one step of the host VM's execution semantics
for the instruction subset exercised here (the interpreter `lvm.c` is an
external collaborator outside `src/`).  Loads write their immediate;
`MOVE`/`ADDI` operate on registers; a comparison instruction executes the
instruction that follows it when its result equals its `k` flag and skips
that instruction otherwise (the semantics the source itself documents and
relies on, `if cond different from k then pc++`); `JMP` is a relative jump;
return-class instructions end execution.  Anything else - or leaving the
code - crashes. -/
def stepInstr (code : List Instr) (cfg : VMCfg) : VMCfg :=
  if cfg.mode ≠ .running then cfg
  else
    match code.get? cfg.pc with
    | none => { cfg with mode := .crashed }
    | some inst =>
      match inst with
      | .iAsBx .OP_LOADI a sbx =>
          { cfg with regs := writeReg cfg.regs a sbx, pc := cfg.pc + 1 }
      | .iABCk .OP_MOVE a b _ _ =>
          { cfg with regs := writeReg cfg.regs a (readReg cfg.regs b),
                     pc := cfg.pc + 1 }
      | .iABCk .OP_ADDI a b sc _ =>
          { cfg with regs := writeReg cfg.regs a (readReg cfg.regs b + sc),
                     pc := cfg.pc + 1 }
      | .iABCk .OP_EQI a sb _ k =>
          if (readReg cfg.regs a = sb) = (k = true) then
            { cfg with pc := cfg.pc + 1 }
          else { cfg with pc := cfg.pc + 2 }
      | .iABCk .OP_EQ a b _ k =>
          if (readReg cfg.regs a = readReg cfg.regs b) = (k = true) then
            { cfg with pc := cfg.pc + 1 }
          else { cfg with pc := cfg.pc + 2 }
      | .isJ .OP_JMP sj _ =>
          let t : Int := (cfg.pc : Int) + 1 + sj
          if t < 0 then { cfg with mode := .crashed }
          else { cfg with pc := t.toNat }
      | .iABCk .OP_RETURN0 _ _ _ _ => { cfg with mode := .returned }
      | .iABCk .OP_RETURN1 _ _ _ _ => { cfg with mode := .returned }
      | .iABCk .OP_RETURN _ _ _ _ => { cfg with mode := .returned }
      | _ => { cfg with mode := .crashed }

/-- Iterated execution. -/
def stepN (code : List Instr) : Nat → VMCfg → VMCfg
  | 0, cfg => cfg
  | n + 1, cfg => stepN code n (stepInstr code cfg)

/-- A six-instruction function that is eligible for flattening (at least 4
instructions, no loop opcodes, four basic blocks): it loads 5 into `R0`,
tests `R0 = 5` with `k = 0`, and holds a jump from pc 4 back to pc 2, so the
jump paired with the conditional test is itself a jump target and the test
ends its basic block alone.  Executing it returns via `RETURN0`. -/
def exCodeC1 : List Instr :=
  [ CREATE_ABx_sBx .OP_LOADI 0 5,
    CREATE_ABCk .OP_EQI 0 (int2sC 5) 0 false,
    CREATE_sJ .OP_JMP (2 + OFFSET_sJ) false,
    CREATE_ABx_sBx .OP_LOADI 0 9,
    CREATE_sJ .OP_JMP (-3 + OFFSET_sJ) false,
    CREATE_ABCk .OP_RETURN0 0 0 0 false ]

/-- A proto holding `exCodeC1` with one declared register. -/
def exProtoC1 : Proto :=
  { code := exCodeC1, maxstacksize := 1, difierline_mode := 0,
    difierline_magicnum := 0, difierline_data := 0, id := 1,
    vm_code_table := none }

/-- The instruction stream `luaO_flatten` produces for `exProtoC1` with only
the `CFF` flag. -/
def flatCodeC1 : List Instr :=
  (luaO_flatten exProtoC1 OBFUSCATE_CFF 0 []).2.1.code

/-- Start configuration: pc 0, registers zeroed (two registers suffice for
`exProtoC1` and its flattened form). -/
def initCfgC1 : VMCfg := { pc := 0, regs := [0, 0], mode := .running }

/-- The configuration the flattened stream reaches after 4 steps and then
revisits every 5 steps: the relocated entry block has just reloaded `R0 = 5`
and is about to re-run its trailing conditional test, which skips the
state-register update, so the dispatch state stays 0 forever. -/
def cycleCfgC1 : VMCfg := { pc := 11, regs := [5, 0], mode := .running }

/-- The transform context `luaO_flatten` builds for `exProtoC1` when the
`CFF` and bogus-block flags are both set (no shuffle, so the analyzed blocks
enter the generator unchanged). -/
def ctxC4 : CFFContext :=
  { f_code := exCodeC1, state_reg := 1, outer_state_reg := 2,
    opaque_reg1 := 3, opaque_reg2 := 4, func_id_reg := 5,
    blocks := (luaO_identifyBlocks exCodeC1).getD [], seed := 0,
    obfuscate_flags := OBFUSCATE_CFF ||| OBFUSCATE_BOGUS_BLOCKS }

/-- Dispatcher generation on `ctxC4`. -/
def genC4 : GenResult := luaO_generateDispatcher ctxC4

/-- The analyzed basic blocks of `exCodeC1`. -/
def blocksC1 : List BasicBlock := (luaO_identifyBlocks exCodeC1).getD []

/-- A straight-line five-instruction function with no jumps: it analyzes to
a single basic block, so flattening must skip it. -/
def exProtoStraight : Proto :=
  { code := [ CREATE_ABx_sBx .OP_LOADI 0 1,
              CREATE_ABx_sBx .OP_LOADI 0 2,
              CREATE_ABx_sBx .OP_LOADI 0 3,
              CREATE_ABx_sBx .OP_LOADI 0 4,
              CREATE_ABCk .OP_RETURN0 0 0 0 false ],
    maxstacksize := 1, difierline_mode := 0, difierline_magicnum := 0,
    difierline_data := 0, id := 2, vm_code_table := none }

/-- The `CFFMetadata` record of `lobfuscate.h` (`block_mapping` is a
pointer, `none` when unset; the unsigned `seed` is read back from an `int`
cell and kept as `Int`). -/
structure CFFMetadata where
  enabled : Int
  num_blocks : Int
  state_reg : Int
  dispatcher_pc : Int
  block_mapping : Option (List Int)
  original_size : Int
  seed : Int
  deriving DecidableEq, Repr

/-- The 8 consecutive `int` cells the serializer's `memcpy` writes for one
`BasicBlock` (the 0/1 flag fields written back as ints). -/
def blockCells (b : BasicBlock) : List Int :=
  [(b.start_pc : Int), (b.end_pc : Int), b.state_id, b.original_target,
   b.fall_through, b.cond_target, if b.is_entry then 1 else 0,
   if b.is_exit then 1 else 0]

/-- Byte size `luaO_serializeMetadata` needs: four ints, one unsigned, and
`num_blocks` 32-byte `BasicBlock` records. -/
def metadataNeeded (num_blocks : Nat) : Nat := 4 * 4 + 4 + 32 * num_blocks

/-- `luaO_serializeMetadata` from `lobfuscate.c`; the byte buffer is
modelled as the list of 32-bit `int` cells the source writes (the
`BasicBlock` records are exactly 8 such cells).  A null buffer
(`hasBuffer = false`) only reports the needed size; a too-small buffer
fails; otherwise the header and block records are written and the needed
size reported back. -/
def luaO_serializeMetadata (ctx : CFFContext) (hasBuffer : Bool)
    (sizeIn : Nat) : Int × List Int × Nat :=
  let needed := metadataNeeded ctx.blocks.length
  if hasBuffer = false then (0, [], needed)
  else if sizeIn < needed then (-1, [], needed)
  else
    let cells := [CFF_MAGIC, CFF_VERSION, (ctx.blocks.length : Int),
      ctx.state_reg, (ctx.seed : Int)] ++ (ctx.blocks.map blockCells).flatten
    (0, cells, needed)

/-- `luaO_deserializeMetadata` from `lobfuscate.c`: `size` is the byte size
the caller claims for the cell buffer, `metadata` the output record's
pre-state; fields are written into it in source order, so on the
truncated-buffer path the failure return carries the already-written
`num_blocks`, `state_reg` and `seed`.  The expected size multiplies the
read `num_blocks` as C `size_t` arithmetic does (modulo `2^64`). -/
def luaO_deserializeMetadata (buffer : List Int) (size : Nat)
    (metadata : CFFMetadata) : Int × CFFMetadata :=
  if size < 4 * 4 + 4 then (-1, metadata)
  else
    let magic := buffer.getD 0 0
    if magic ≠ CFF_MAGIC then (-1, metadata)
    else
      let version := buffer.getD 1 0
      if version ≠ CFF_VERSION then (-1, metadata)
      else
        let md1 := { metadata with num_blocks := buffer.getD 2 0 }
        let md2 := { md1 with state_reg := buffer.getD 3 0 }
        let md3 := { md2 with seed := buffer.getD 4 0 }
        let expected :=
          (((4 * 4 + 4 : Int) + 32 * md3.num_blocks) % (2 : Int) ^ 64).toNat
        if size < expected then (-1, md3)
        else
          let mapping := (List.range md3.num_blocks.toNat).map
            (fun i => buffer.getD (5 + 8 * i) 0)
          (0, { md3 with block_mapping := some mapping, enabled := 1 })

/-- `luaO_freeMetadata` from `lobfuscate.c`: drop the mapping and clear the
enabled flag. -/
def luaO_freeMetadata (metadata : CFFMetadata) : CFFMetadata :=
  { metadata with block_mapping := none, enabled := 0 }

/-- A truncated metadata buffer: valid magic and version, one declared
block, but only the 20 header bytes present. -/
def exTruncBuf : List Int := [CFF_MAGIC, CFF_VERSION, 1, 5, 7]

/-- An all-zero metadata record, the pre-state of the deserialization
output. -/
def mdZero : CFFMetadata :=
  { enabled := 0, num_blocks := 0, state_reg := 0, dispatcher_pc := 0,
    block_mapping := none, original_size := 0, seed := 0 }

end LXCObf

namespace LXCObf

theorem stepN_add (code : List Instr) (m n : Nat) (cfg : VMCfg) :
    stepN code (m + n) cfg = stepN code n (stepN code m cfg) := by
  induction m generalizing cfg with
  | zero => simp [stepN]
  | succ m ih =>
      have h : m + 1 + n = (m + n) + 1 := by omega
      rw [show m + 1 + n = m + n + 1 from h]
      simp only [stepN]
      calc stepN code (m + n) (stepInstr code cfg)
          = stepN code n (stepN code m (stepInstr code cfg)) := by
            simpa using ih (stepInstr code cfg)
        _ = stepN code n (stepN code (m + 1) cfg) := rfl

/-- A configuration lying on a cycle along which no step has returned never
reaches the returned status. -/
theorem not_returned_of_cycle (code : List Instr) (c : VMCfg) (k : Nat)
    (hk : 0 < k) (hcyc : stepN code k c = c)
    (hall : ∀ j, j < k → (stepN code j c).mode ≠ .returned) :
    ∀ n, (stepN code n c).mode ≠ .returned := by
  intro n
  induction n using Nat.strong_induction_on with
  | _ n ih =>
      by_cases h : n < k
      · exact hall n h
      · have hge : k ≤ n := Nat.le_of_not_lt h
        have hmain : stepN code n c = stepN code (n - k) c := by
          have hnk : n = k + (n - k) := by omega
          conv_lhs => rw [hnk]
          rw [stepN_add, hcyc]
        rw [hmain]
        exact ih (n - k) (by omega)

/-- Appending one non-empty block extending the tiled prefix keeps the
tiling. -/
theorem coversB_append (l : List BasicBlock) (blk : BasicBlock) (a : Nat)
    (h : coversB l a blk.start_pc = true) (hlt : blk.start_pc < blk.end_pc) :
    coversB (l ++ [blk]) a blk.end_pc = true := by
  induction l generalizing a with
  | nil =>
      simp only [coversB, beq_iff_eq] at h
      simp [coversB, h, hlt]
  | cons x t ih =>
      simp only [coversB, Bool.and_eq_true, beq_iff_eq, decide_eq_true_eq] at h
      obtain ⟨⟨ha, hb⟩, hc⟩ := h
      simp only [List.cons_append, coversB, Bool.and_eq_true, beq_iff_eq,
        decide_eq_true_eq]
      exact ⟨⟨ha, hb⟩, ih _ hc⟩

/-- Every block of a tiling of an interval starts at or after the
interval's left end. -/
theorem coversB_start_le (l : List BasicBlock) (a c : Nat)
    (h : coversB l a c = true) : ∀ b ∈ l, a ≤ b.start_pc := by
  induction l generalizing a with
  | nil => intro b hb; cases hb
  | cons x t ih =>
      simp only [coversB, Bool.and_eq_true, beq_iff_eq, decide_eq_true_eq] at h
      obtain ⟨⟨ha, hb2⟩, hc⟩ := h
      intro b hb
      rcases List.mem_cons.1 hb with rfl | hb
      · omega
      · have := ih _ hc b hb
        omega

/-- Invariant of the block-splitting fold of `luaO_identifyBlocks` after
the pcs `1..k`: the accumulated blocks tile `[0, block_start)`, the pending
`block_start` is at most `k`, and every accumulated block records
`is_entry = (start_pc == 0)`. -/
theorem splitFold_props (n : Nat) (ld : List Bool) (k : Nat) :
    coversB ((List.range' 1 k).foldl (splitStep n ld) ([], 0)).1 0
        ((List.range' 1 k).foldl (splitStep n ld) ([], 0)).2 = true ∧
    ((List.range' 1 k).foldl (splitStep n ld) ([], 0)).2 ≤ k ∧
    ∀ b ∈ ((List.range' 1 k).foldl (splitStep n ld) ([], 0)).1,
      b.is_entry = decide (b.start_pc = 0) := by
  induction k with
  | zero =>
      refine ⟨by simp [coversB], by simp, ?_⟩
      intro b hb
      simp at hb
  | succ k ih =>
      rw [List.range'_1_concat, List.foldl_append]
      simp only [List.foldl_cons, List.foldl_nil]
      set st := (List.range' 1 k).foldl (splitStep n ld) ([], 0) with hst
      obtain ⟨h1, h2, h3⟩ := ih
      rw [show splitStep n ld st (1 + k) =
        (if 1 + k = n ∨ ld.getD (1 + k) false then
          (addBlock st.1 st.2 (1 + k), 1 + k) else st) from rfl]
      split
      · refine ⟨?_, by simp; omega, ?_⟩
        · have hc := coversB_append st.1
            { start_pc := st.2, end_pc := 1 + k,
              state_id := (st.1.length : Int),
              original_target := -1, fall_through := -1, cond_target := -1,
              is_entry := decide (st.2 = 0),
              is_exit := false } 0 h1 (by simp; omega)
          simpa [addBlock] using hc
        · intro b hb
          simp only [addBlock, List.mem_append, List.mem_singleton] at hb
          rcases hb with hb | rfl
          · exact h3 b hb
          · rfl
      · exact ⟨h1, by omega, h3⟩

/-- The exit-analysis pass only rewrites edge fields: `start_pc`, `end_pc`
and `is_entry` are preserved. -/
theorem analyzeBlock_preserves (code : List Instr) (blocks : List BasicBlock)
    (b : BasicBlock) :
    (analyzeBlock code blocks b).start_pc = b.start_pc ∧
    (analyzeBlock code blocks b).end_pc = b.end_pc ∧
    (analyzeBlock code blocks b).is_entry = b.is_entry := by
  unfold analyzeBlock
  simp only [apply_ite BasicBlock.start_pc, apply_ite BasicBlock.end_pc,
    apply_ite BasicBlock.is_entry]
  simp

/-- Tiling is invariant under the exit-analysis map. -/
theorem coversB_map_analyze (code : List Instr) (blocks : List BasicBlock)
    (l : List BasicBlock) (a c : Nat) :
    coversB (l.map (analyzeBlock code blocks)) a c = coversB l a c := by
  induction l generalizing a with
  | nil => rfl
  | cons x t ih =>
      simp only [List.map_cons, coversB]
      rw [(analyzeBlock_preserves code blocks x).1,
        (analyzeBlock_preserves code blocks x).2.1, ih]

/-- In a non-empty tiling of `[0, n)` whose blocks record
`is_entry = (start_pc == 0)`, exactly the first block is the entry block. -/
theorem coversB_entry_facts (l : List BasicBlock) (n : Nat)
    (hc : coversB l 0 n = true)
    (he : ∀ b ∈ l, b.is_entry = decide (b.start_pc = 0))
    (hne : l ≠ []) :
    l.countP (fun b => b.is_entry) = 1 ∧
    ∀ b ∈ l, b.is_entry = true → b.start_pc = 0 := by
  match l with
  | [] => exact absurd rfl hne
  | b0 :: rest =>
      simp only [coversB, Bool.and_eq_true, beq_iff_eq, decide_eq_true_eq] at hc
      obtain ⟨⟨hs0, hlt⟩, hcr⟩ := hc
      have hrest : ∀ b ∈ rest, b.is_entry = false := by
        intro b hb
        have h1 := coversB_start_le rest b0.end_pc n hcr b hb
        have h2 := he b (List.mem_cons_of_mem _ hb)
        rw [h2]
        simp only [decide_eq_false_iff_not]
        omega
      have hb0 : b0.is_entry = true := by
        have := he b0 (List.mem_cons_self _ _)
        rw [this]
        simp [hs0]
      constructor
      · rw [List.countP_cons]
        have hz : rest.countP (fun b => b.is_entry) = 0 := by
          rw [List.countP_eq_zero]
          intro b hb
          simp [hrest b hb]
        simp [hz, hb0]
      · intro b hb hbe
        rcases List.mem_cons.1 hb with rfl | hb
        · exact hs0
        · rw [hrest b hb] at hbe
          cases hbe

/-- C5: when block identification succeeds, the produced blocks partition
`[0, codeLength)` with no gaps and no overlaps (each block ends where the
next starts, the first starts at 0, the last ends at `codeLength`), and
exactly one block has `is_entry` set, namely the block starting at
offset 0. -/
theorem luaO_identifyBlocks_partition_C5 (code : List Instr)
    (bs : List BasicBlock) (h : luaO_identifyBlocks code = some bs) :
    coversB bs 0 code.length = true ∧
    bs.countP (fun b => b.is_entry) = 1 ∧
    ∀ b ∈ bs, b.is_entry = true → b.start_pc = 0 := by
  unfold luaO_identifyBlocks at h
  by_cases hn : code.length = 0
  · rw [if_pos hn] at h; cases h
  rw [if_neg hn] at h
  have hbs : bs = (splitBlocks code.length (computeLeaders code)).map
      (analyzeBlock code (splitBlocks code.length (computeLeaders code))) := by
    exact (Option.some.injEq _ _ ▸ h).symm
  set ld := computeLeaders code with hld
  set n := code.length with hcn
  -- expose the final fold step of splitBlocks
  have hn1 : n = (n - 1) + 1 := by omega
  obtain ⟨h1, h2, h3⟩ := splitFold_props n ld (n - 1)
  set st := (List.range' 1 (n - 1)).foldl (splitStep n ld) ([], 0) with hst
  have hrange : List.range' 1 n = List.range' 1 (n - 1) ++ [1 + (n - 1)] := by
    conv_lhs => rw [hn1]
    exact List.range'_1_concat 1 (n - 1)
  have hsplit : splitBlocks n ld = addBlock st.1 st.2 n := by
    unfold splitBlocks
    rw [hrange, List.foldl_append]
    simp only [List.foldl_cons, List.foldl_nil, ← hst]
    rw [show splitStep n ld st (1 + (n - 1)) =
      (if 1 + (n - 1) = n ∨ ld.getD (1 + (n - 1)) false then
        (addBlock st.1 st.2 (1 + (n - 1)), 1 + (n - 1)) else st) from rfl]
    rw [if_pos (Or.inl (by omega))]
    rw [show 1 + (n - 1) = n from by omega]
  have hcov : coversB (splitBlocks n ld) 0 n = true := by
    rw [hsplit]
    have hc := coversB_append st.1
      { start_pc := st.2, end_pc := n, state_id := (st.1.length : Int),
        original_target := -1, fall_through := -1, cond_target := -1,
        is_entry := decide (st.2 = 0), is_exit := false } 0
      h1 (by simp; omega)
    simpa [addBlock] using hc
  have hent : ∀ b ∈ splitBlocks n ld, b.is_entry = decide (b.start_pc = 0) := by
    rw [hsplit]
    intro b hb
    simp only [addBlock, List.mem_append, List.mem_singleton] at hb
    rcases hb with hb | rfl
    · exact h3 b hb
    · rfl
  have hne : splitBlocks n ld ≠ [] := by
    rw [hsplit]
    simp [addBlock]
  -- transfer along the analyze map
  rw [hbs]
  have hcov2 : coversB ((splitBlocks n ld).map
      (analyzeBlock code (splitBlocks n ld))) 0 n = true := by
    rw [coversB_map_analyze]
    exact hcov
  have hent2 : ∀ b ∈ (splitBlocks n ld).map
      (analyzeBlock code (splitBlocks n ld)),
      b.is_entry = decide (b.start_pc = 0) := by
    intro b hb
    obtain ⟨x, hx, rfl⟩ := List.mem_map.1 hb
    rw [(analyzeBlock_preserves code (splitBlocks n ld) x).2.2,
      (analyzeBlock_preserves code (splitBlocks n ld) x).1]
    exact hent x hx
  have hne2 : (splitBlocks n ld).map
      (analyzeBlock code (splitBlocks n ld)) ≠ [] := by
    simpa using hne
  obtain ⟨hcount, hloc⟩ := coversB_entry_facts _ n hcov2 hent2 hne2
  exact ⟨hcov2, hcount, hloc⟩

/-- Witness for C5: the partition facts instantiated on the concrete
6-instruction function `exCodeC1`. -/
theorem luaO_identifyBlocks_partition_C5_witness :
    coversB blocksC1 0 exCodeC1.length = true ∧
    blocksC1.countP (fun b => b.is_entry) = 1 ∧
    ∀ b ∈ blocksC1, b.is_entry = true → b.start_pc = 0 :=
  luaO_identifyBlocks_partition_C5 exCodeC1 blocksC1 (by decide)

/-- Pulling the element at `m` to the front while writing `a` at `m` is a
permutation with putting `a` in front. -/
theorem get_cons_set_perm {α : Type} (t : List α) (m : Nat) (hm : m < t.length)
    (a d : α) : List.Perm ((t.getD m d) :: (t.set m a)) (a :: t) := by
  induction t generalizing m with
  | nil => cases hm
  | cons y s ih =>
      cases m with
      | zero => simp only [List.getD_cons_zero, List.set_cons_zero]
                exact List.Perm.swap _ _ _
      | succ k =>
          simp only [List.getD_cons_succ, List.set_cons_succ]
          refine List.Perm.trans (List.Perm.swap _ _ _) ?_
          refine List.Perm.trans ((ih k (by simpa using hm)).cons y) ?_
          exact List.Perm.swap _ _ _

/-- Exchanging the entries at two in-range indices permutes the list. -/
theorem set_set_perm {α : Type} (l : List α) (i j : Nat) (d : α)
    (hi : i < l.length) (hj : j < l.length) :
    List.Perm ((l.set i (l.getD j d)).set j (l.getD i d)) l := by
  induction l generalizing i j with
  | nil => cases hi
  | cons x t ih =>
      cases i with
      | zero =>
          cases j with
          | zero => simp
          | succ k =>
              simp only [List.getD_cons_succ, List.getD_cons_zero,
                List.set_cons_zero, List.set_cons_succ]
              exact get_cons_set_perm t k (by simpa using hj) x d
      | succ m =>
          cases j with
          | zero =>
              simp only [List.getD_cons_succ, List.getD_cons_zero,
                List.set_cons_zero, List.set_cons_succ]
              exact get_cons_set_perm t m (by simpa using hi) x d
          | succ k =>
              simp only [List.getD_cons_succ, List.set_cons_succ]
              exact (ih m k (by simpa using hi) (by simpa using hj)).cons x

/-- Writing at a nonzero index leaves the head unchanged. -/
theorem getD_zero_set_ne {α : Type} (l : List α) (i : Nat) (a d : α)
    (h : i ≠ 0) : (l.set i a).getD 0 d = l.getD 0 d := by
  simp [List.getD]
  rw [List.getElem?_set_ne h]

/-- One Fisher-Yates step with `1 <= i < length` permutes the `state_id`
projection, keeps the length, and leaves the entry block (index 0)
untouched. -/
theorem shuffleStep_facts (st : List BasicBlock × Nat) (i : Nat)
    (h1 : 1 ≤ i) (h2 : i < st.1.length) :
    List.Perm ((shuffleStep st i).1.map BasicBlock.state_id)
      (st.1.map BasicBlock.state_id) ∧
    (shuffleStep st i).1.length = st.1.length ∧
    ((shuffleStep st i).1.getD 0 default).state_id
      = (st.1.getD 0 default).state_id := by
  unfold shuffleStep
  set seed := NEXT_RAND st.2 with hseed
  set j := 1 + seed % i with hj
  have hj1 : 1 ≤ j := by omega
  have hjle : j ≤ i := by
    have := Nat.mod_lt seed (show 0 < i by omega)
    omega
  have hjlt : j < st.1.length := by omega
  set blocks := st.1 with hblocks
  set L := blocks.map BasicBlock.state_id with hL
  have hgetj : (blocks.getD j default).state_id = L.getD j 0 := by
    rw [hL, List.getD_eq_getElem _ _ hjlt,
      List.getD_eq_getElem _ _ (by simpa using hjlt), List.getElem_map]
  have hgeti : (blocks.getD i default).state_id = L.getD i 0 := by
    rw [hL, List.getD_eq_getElem _ _ h2,
      List.getD_eq_getElem _ _ (by simpa using h2), List.getElem_map]
  have hmap : ((blocks.set i { blocks.getD i default with
      state_id := (blocks.getD j default).state_id }).set j
      { (blocks.set i { blocks.getD i default with
          state_id := (blocks.getD j default).state_id }).getD j default with
        state_id := (blocks.getD i default).state_id }).map
      BasicBlock.state_id
      = (L.set i (L.getD j 0)).set j (L.getD i 0) := by
    rw [List.map_set, List.map_set]
    simp only [hgetj, hgeti]
  refine ⟨?_, by simp, ?_⟩
  · rw [hmap]
    exact set_set_perm L i j 0 (by simpa [hL] using h2)
      (by simpa [hL] using hjlt)
  · rw [getD_zero_set_ne _ j _ _ (by omega), getD_zero_set_ne _ i _ _ (by omega)]

/-- The Fisher-Yates fold over any in-range index list permutes the
`state_id` projection, keeps the length, and leaves index 0 untouched. -/
theorem shuffleFold_facts (is : List Nat) (st : List BasicBlock × Nat)
    (h : ∀ i ∈ is, 1 ≤ i ∧ i < st.1.length) :
    List.Perm ((is.foldl shuffleStep st).1.map BasicBlock.state_id)
      (st.1.map BasicBlock.state_id) ∧
    (is.foldl shuffleStep st).1.length = st.1.length ∧
    ((is.foldl shuffleStep st).1.getD 0 default).state_id
      = (st.1.getD 0 default).state_id := by
  induction is generalizing st with
  | nil => exact ⟨List.Perm.refl _, rfl, rfl⟩
  | cons i rest ih =>
      simp only [List.foldl_cons]
      obtain ⟨hi1, hi2⟩ := h i (List.mem_cons_self _ _)
      obtain ⟨p1, p2, p3⟩ := shuffleStep_facts st i hi1 hi2
      obtain ⟨q1, q2, q3⟩ := ih (shuffleStep st i)
        (fun x hx => ⟨(h x (List.mem_cons_of_mem _ hx)).1,
          by rw [p2]; exact (h x (List.mem_cons_of_mem _ hx)).2⟩)
      exact ⟨q1.trans p1, q2.trans p2, q3.trans p3⟩

/-- C6: when the blocks' `state_id` values initially equal their indices,
the multiset of `state_id` values is a permutation of `0..n-1` both before
(where it is exactly the identity list) and after `luaO_shuffleBlocks`; the
shuffle never changes the `state_id` of the block at index 0; and for
`n <= 2` the shuffle changes nothing (blocks and seed alike). -/
theorem luaO_shuffleBlocks_state_perm_C6 (blocks : List BasicBlock) (seed : Nat)
    (hinit : ∀ i, i < blocks.length →
      (blocks.getD i default).state_id = (i : Int)) :
    (blocks.map BasicBlock.state_id
      = List.map Int.ofNat (List.range blocks.length)) ∧
    List.Perm ((luaO_shuffleBlocks blocks seed).1.map BasicBlock.state_id)
      (List.map Int.ofNat (List.range blocks.length)) ∧
    ((luaO_shuffleBlocks blocks seed).1.getD 0 default).state_id
      = (blocks.getD 0 default).state_id ∧
    (blocks.length ≤ 2 → luaO_shuffleBlocks blocks seed = (blocks, seed)) := by
  have hbase : blocks.map BasicBlock.state_id
      = List.map Int.ofNat (List.range blocks.length) := by
    apply List.ext_getElem
    · simp
    · intro i hi1 hi2
      have hi : i < blocks.length := by simpa using hi1
      rw [List.getElem_map, List.getElem_map, List.getElem_range]
      rw [show blocks[i] = blocks.getD i default from
        (List.getD_eq_getElem blocks default hi).symm]
      exact hinit i hi
  refine ⟨hbase, ?_, ?_, ?_⟩
  · unfold luaO_shuffleBlocks
    split
    · rw [hbase]
    · have hmem : ∀ i ∈ (List.range' 2 (blocks.length - 2)).reverse,
          1 ≤ i ∧ i < blocks.length := by
        intro i hi
        rw [List.mem_reverse] at hi
        rw [List.mem_range'_1] at hi
        omega
      obtain ⟨p1, _, _⟩ := shuffleFold_facts _ (blocks, seed) hmem
      rw [← hbase]
      exact p1
  · unfold luaO_shuffleBlocks
    split
    · rfl
    · have hmem : ∀ i ∈ (List.range' 2 (blocks.length - 2)).reverse,
          1 ≤ i ∧ i < blocks.length := by
        intro i hi
        rw [List.mem_reverse] at hi
        rw [List.mem_range'_1] at hi
        omega
      exact (shuffleFold_facts _ (blocks, seed) hmem).2.2
  · intro hle
    unfold luaO_shuffleBlocks
    rw [if_pos hle]

/-- Witness for C6: the shuffle facts instantiated on the four analyzed
blocks of `exCodeC1` (whose `state_id` values are `0..3`) at seed 42. -/
theorem luaO_shuffleBlocks_state_perm_C6_witness :
    (blocksC1.map BasicBlock.state_id
      = List.map Int.ofNat (List.range blocksC1.length)) ∧
    List.Perm ((luaO_shuffleBlocks blocksC1 42).1.map BasicBlock.state_id)
      (List.map Int.ofNat (List.range blocksC1.length)) ∧
    ((luaO_shuffleBlocks blocksC1 42).1.getD 0 default).state_id
      = (blocksC1.getD 0 default).state_id ∧
    (blocksC1.length ≤ 2 → luaO_shuffleBlocks blocksC1 42 = (blocksC1, 42)) :=
  luaO_shuffleBlocks_state_perm_C6 blocksC1 42 (by decide)

/-- C3: with the `CFF` flag set, a function with fewer than 4 instructions,
or containing a loop-control opcode, or analyzing to fewer than 2 basic
blocks, makes `luaO_flatten` return success (0) with the function prototype
returned unchanged in every field (and the VM side table untouched). -/
theorem luaO_flatten_eligibility_skip_C3 (f : Proto) (flags : Nat)
    (seed : Nat) (tbl : List VMCodeTable)
    (hcff : flags &&& OBFUSCATE_CFF ≠ 0)
    (hskip : f.code.length < 4 ∨ hasLoopOpcode f.code = true ∨
      ((luaO_identifyBlocks f.code).getD []).length < 2) :
    luaO_flatten f flags seed tbl = (0, f, tbl) := by
  unfold luaO_flatten
  rw [if_neg hcff]
  by_cases h4 : f.code.length < 4
  · rw [if_pos h4]
  · rw [if_neg h4]
    by_cases hloop : hasLoopOpcode f.code = true
    · rw [if_pos hloop]
    · rw [if_neg hloop]
      have hlen : ¬ f.code.length = 0 := by omega
      obtain ⟨bs, hbs⟩ : ∃ bs, luaO_identifyBlocks f.code = some bs := by
        unfold luaO_identifyBlocks
        rw [if_neg hlen]
        exact ⟨_, rfl⟩
      rw [hbs]
      simp only []
      have h2 : bs.length < 2 := by
        rcases hskip with h | h | h
        · omega
        · exact absurd h hloop
        · rw [hbs] at h
          simpa using h
      rw [if_pos h2]

/-- Witness for C3: the straight-line five-instruction function analyzes to
one basic block and is returned unchanged with success. -/
theorem luaO_flatten_eligibility_skip_C3_witness :
    luaO_flatten exProtoStraight OBFUSCATE_CFF 7 [] = (0, exProtoStraight, []) :=
  luaO_flatten_eligibility_skip_C3 exProtoStraight OBFUSCATE_CFF 7 []
    (by decide) (Or.inr (Or.inr (by decide)))

/-- Rotating a 64-bit value left by `r < 64` (as the cipher's shift pair
realizes it) and then right by `r` restores the value. -/
theorem rot64_inverse (x r : Nat) (hx : x < 2 ^ 64) (hr : r < 64) :
    ((((x <<< r) % 2 ^ 64) ||| (x >>> (64 - r))) >>> r) |||
      (((((x <<< r) % 2 ^ 64) ||| (x >>> (64 - r))) <<< (64 - r)) % 2 ^ 64)
      = x := by
  apply Nat.eq_of_testBit_eq
  intro i
  have hxbit : ∀ j, 64 ≤ j → x.testBit j = false := fun j hj =>
    Nat.testBit_lt_two_pow
      (lt_of_lt_of_le hx (Nat.pow_le_pow_right (by norm_num) hj))
  simp only [Nat.testBit_lor, Nat.testBit_shiftRight, Nat.testBit_mod_two_pow,
    Nat.testBit_shiftLeft, ge_iff_le]
  by_cases hi64 : 64 ≤ i
  · have d1 : decide (r + i < 64) = false := by
      simp only [decide_eq_false_iff_not]; omega
    have d2 : decide (i < 64) = false := by
      simp only [decide_eq_false_iff_not]; omega
    have e1 : x.testBit (64 - r + (r + i)) = false := hxbit _ (by omega)
    have e2 : x.testBit i = false := hxbit _ (by omega)
    simp [d1, d2, e1, e2]
  · by_cases hlow : i < 64 - r
    · have d1 : decide (r + i < 64) = true := by
        simp only [decide_eq_true_eq]; omega
      have d2 : decide (r ≤ r + i) = true := by
        simp only [decide_eq_true_eq]; omega
      have d3 : decide (64 - r ≤ i) = false := by
        simp only [decide_eq_false_iff_not]; omega
      have e1 : x.testBit (64 - r + (r + i)) = false := hxbit _ (by omega)
      have e2 : r + i - r = i := by omega
      simp [d1, d2, d3, e1, e2]
      intro h1 h2 h3
      exact absurd h2 (by omega)
    · have d1 : decide (r + i < 64) = false := by
        simp only [decide_eq_false_iff_not]; omega
      have d2 : decide (i < 64) = true := by
        simp only [decide_eq_true_eq]; omega
      have d3 : decide (64 - r ≤ i) = true := by
        simp only [decide_eq_true_eq]; omega
      have e1 : x.testBit (64 - r + (r + i)) = false := hxbit _ (by omega)
      have d4 : decide (i - (64 - r) < 64) = true := by
        simp only [decide_eq_true_eq]; omega
      have d5 : decide (r ≤ i - (64 - r)) = false := by
        simp only [decide_eq_false_iff_not]; omega
      have e2 : 64 - r + (i - (64 - r)) = i := by omega
      simp [d1, d2, d3, d4, d5, e1, e2]
      intro _
      omega

/-- C10: for every 64-bit instruction word, 64-bit key, and offset `pc`,
decrypting the encryption of the word with the same key and offset returns
the word: the position-dependent cipher (XOR with the key, rotate left by
`pc mod 64`, XOR with the position-modified key) is inverted by the paired
decryption routine. -/
theorem vm_encrypt_decrypt_roundtrip_C10 (inst key : Nat) (pc : Nat)
    (hinst : inst < 2 ^ 64) (hkey : key < 2 ^ 64) :
    decryptVMInstruction (encryptVMInstruction inst key pc) key pc = inst := by
  unfold encryptVMInstruction decryptVMInstruction
  simp only []
  set mk := key ^^^ ((pc * 0x9E3779B97F4A7C15) % 2 ^ 64) with hmk
  set e1 := inst ^^^ key with he1
  have he1lt : e1 < 2 ^ 64 := Nat.xor_lt_two_pow hinst hkey
  set r := pc % 64 with hrr
  have hrlt : r < 64 := Nat.mod_lt _ (by norm_num)
  have h2 : ((((e1 <<< r) % 2 ^ 64) ||| (e1 >>> (64 - r))) ^^^ mk) ^^^ mk
      = (((e1 <<< r) % 2 ^ 64) ||| (e1 >>> (64 - r))) := by
    rw [Nat.xor_assoc, Nat.xor_self, Nat.xor_zero]
  rw [h2]
  rw [rot64_inverse e1 r he1lt hrlt]
  rw [he1, Nat.xor_assoc, Nat.xor_self, Nat.xor_zero]

/-- Witness for C10: the round trip at a concrete word, key and offset. -/
theorem vm_encrypt_decrypt_roundtrip_C10_witness :
    decryptVMInstruction
      (encryptVMInstruction 0xDEADBEEF12345678 0xA5A5A5A55A5A5A5A 7)
      0xA5A5A5A55A5A5A5A 7 = 0xDEADBEEF12345678 :=
  vm_encrypt_decrypt_roundtrip_C10 0xDEADBEEF12345678 0xA5A5A5A55A5A5A5A 7
    (by norm_num) (by norm_num)

/-- C7 counterexample: on an eligible 5-instruction function,
`luaO_vmProtect` succeeds but the VM side table is returned unchanged
(empty here): no entry keyed by the function's identity exists, contrary to
the claim.  (`luaO_registerVMCode` is never invoked; the encrypted buffer
is freed with the context.) -/
theorem vmProtect_no_table_entry_C7cex :
    (luaO_vmProtect exProtoStraight 0 []).1 = 0 ∧
    (luaO_vmProtect exProtoStraight 0 []).2.2 = [] ∧
    ¬ ∃ vt ∈ (luaO_vmProtect exProtoStraight 0 []).2.2,
        vt.proto_id = exProtoStraight.id := by
  refine ⟨by decide, by decide, ?_⟩
  intro ⟨vt, hvt, _⟩
  have h : (luaO_vmProtect exProtoStraight 0 []).2.2 = [] := by decide
  rw [h] at hvt
  cases hvt

/-- C7 amended: after `luaO_vmProtect` succeeds on an eligible function (at
least 4 instructions), no side-table entry is created - the table and the
proto's `vm_code_table` pointer are returned unchanged - and the function
is instead marked in place: the `VM_PROTECT` flag is set in
`difierline_mode` and the low 32 bits of the encryption key are stored in
`difierline_data`; the instruction stream is untouched. -/
theorem vmProtect_flags_only_C7 (f : Proto) (seed : Nat)
    (tbl : List VMCodeTable) (h4 : 4 ≤ f.code.length) :
    (luaO_vmProtect f seed tbl).1 = 0 ∧
    (luaO_vmProtect f seed tbl).2.2 = tbl ∧
    (luaO_vmProtect f seed tbl).2.1.code = f.code ∧
    (luaO_vmProtect f seed tbl).2.1.difierline_mode
      = f.difierline_mode ||| OBFUSCATE_VM_PROTECT ∧
    (luaO_vmProtect f seed tbl).2.1.difierline_data
      = (f.difierline_data &&& 0xFFFFFFFF00000000) |||
        ((luaO_initVMContext seed).encrypt_key &&& 0xFFFFFFFF) ∧
    (luaO_vmProtect f seed tbl).2.1.vm_code_table = f.vm_code_table := by
  unfold luaO_vmProtect
  rw [if_neg (by omega)]
  exact ⟨rfl, rfl, rfl, rfl, rfl, rfl⟩

/-- Witness for the amended C7 at the straight-line function, seed 3. -/
theorem vmProtect_flags_only_C7_witness :
    (luaO_vmProtect exProtoStraight 3 []).1 = 0 ∧
    (luaO_vmProtect exProtoStraight 3 []).2.2 = [] ∧
    (luaO_vmProtect exProtoStraight 3 []).2.1.code = exProtoStraight.code ∧
    (luaO_vmProtect exProtoStraight 3 []).2.1.difierline_mode
      = exProtoStraight.difierline_mode ||| OBFUSCATE_VM_PROTECT ∧
    (luaO_vmProtect exProtoStraight 3 []).2.1.difierline_data
      = (exProtoStraight.difierline_data &&& 0xFFFFFFFF00000000) |||
        ((luaO_initVMContext 3).encrypt_key &&& 0xFFFFFFFF) ∧
    (luaO_vmProtect exProtoStraight 3 []).2.1.vm_code_table
      = exProtoStraight.vm_code_table :=
  vmProtect_flags_only_C7 exProtoStraight 3 [] (by decide)

/-- C8: serializing a transform context into a sufficiently large buffer
and deserializing the produced buffer succeeds and reproduces the context's
block count, state register index, and seed exactly (for any pre-state of
the output record; block counts within the C `int` range). -/
theorem metadata_roundtrip_C8 (ctx : CFFContext) (md0 : CFFMetadata)
    (hn : ctx.blocks.length < 2 ^ 31) :
    (luaO_serializeMetadata ctx true (metadataNeeded ctx.blocks.length)).1
      = 0 ∧
    (luaO_deserializeMetadata
      (luaO_serializeMetadata ctx true (metadataNeeded ctx.blocks.length)).2.1
      (luaO_serializeMetadata ctx true (metadataNeeded ctx.blocks.length)).2.2
      md0).1 = 0 ∧
    (luaO_deserializeMetadata
      (luaO_serializeMetadata ctx true (metadataNeeded ctx.blocks.length)).2.1
      (luaO_serializeMetadata ctx true (metadataNeeded ctx.blocks.length)).2.2
      md0).2.num_blocks = (ctx.blocks.length : Int) ∧
    (luaO_deserializeMetadata
      (luaO_serializeMetadata ctx true (metadataNeeded ctx.blocks.length)).2.1
      (luaO_serializeMetadata ctx true (metadataNeeded ctx.blocks.length)).2.2
      md0).2.state_reg = ctx.state_reg ∧
    (luaO_deserializeMetadata
      (luaO_serializeMetadata ctx true (metadataNeeded ctx.blocks.length)).2.1
      (luaO_serializeMetadata ctx true (metadataNeeded ctx.blocks.length)).2.2
      md0).2.seed = (ctx.seed : Int) := by
  have hser : luaO_serializeMetadata ctx true (metadataNeeded ctx.blocks.length)
      = (0, [CFF_MAGIC, CFF_VERSION, (ctx.blocks.length : Int),
          ctx.state_reg, (ctx.seed : Int)] ++ (ctx.blocks.map blockCells).flatten,
          metadataNeeded ctx.blocks.length) := by
    unfold luaO_serializeMetadata
    rw [if_neg (by simp), if_neg (by omega)]
  rw [hser]
  set cells := [CFF_MAGIC, CFF_VERSION, (ctx.blocks.length : Int),
    ctx.state_reg, (ctx.seed : Int)] ++ (ctx.blocks.map blockCells).flatten
    with hcells
  have hp1 : ((0 : Int), cells, metadataNeeded ctx.blocks.length).1 = 0 := rfl
  have hp2 : ((0 : Int), cells, metadataNeeded ctx.blocks.length).2.1
      = cells := rfl
  have hp3 : ((0 : Int), cells, metadataNeeded ctx.blocks.length).2.2
      = metadataNeeded ctx.blocks.length := rfl
  simp only [hp1, hp2, hp3]
  have hg0 : cells.getD 0 0 = CFF_MAGIC := by rw [hcells]; rfl
  have hg1 : cells.getD 1 0 = CFF_VERSION := by rw [hcells]; rfl
  have hg2 : cells.getD 2 0 = (ctx.blocks.length : Int) := by rw [hcells]; rfl
  have hg3 : cells.getD 3 0 = ctx.state_reg := by rw [hcells]; rfl
  have hg4 : cells.getD 4 0 = (ctx.seed : Int) := by rw [hcells]; rfl
  unfold luaO_deserializeMetadata
  rw [if_neg (by unfold metadataNeeded; omega)]
  simp only [hg0, hg1, hg2, hg3, hg4]
  rw [if_neg (by simp)]
  rw [if_neg (by simp)]
  have hexp : ((((4 * 4 + 4 : Int) + 32 * (ctx.blocks.length : Int))) %
      (2 : Int) ^ 64).toNat = metadataNeeded ctx.blocks.length := by
    rw [Int.emod_eq_of_lt (by positivity) (by push_cast; omega)]
    unfold metadataNeeded
    omega
  rw [if_neg (by rw [hexp]; omega)]
  exact ⟨trivial, rfl, rfl, rfl, rfl⟩

/-- C9 counterexample: a buffer with valid magic and version declaring one
block but truncated to the 20 header bytes makes deserialization fail, yet
the output record has been modified: `num_blocks` was already set to 1,
contrary to the claim that no partial metadata object is constructed. -/
theorem deserialize_C9cex :
    (luaO_deserializeMetadata exTruncBuf 20 mdZero).1 = -1 ∧
    (luaO_deserializeMetadata exTruncBuf 20 mdZero).2 ≠ mdZero ∧
    (luaO_deserializeMetadata exTruncBuf 20 mdZero).2.num_blocks = 1 := by
  refine ⟨by decide, by decide, by decide⟩

/-- C9 amended: deserialization fails without touching the output record
on a short header, a bad magic, or a bad version; on a buffer truncated
with respect to its declared block count it fails after having written
exactly `num_blocks`, `state_reg` and `seed` into the output record
(`block_mapping` and `enabled` stay unmodified). -/
theorem deserialize_failure_paths_C9 (buffer : List Int) (size : Nat)
    (md : CFFMetadata) :
    (size < 20 → luaO_deserializeMetadata buffer size md = (-1, md)) ∧
    (20 ≤ size → buffer.getD 0 0 ≠ CFF_MAGIC →
      luaO_deserializeMetadata buffer size md = (-1, md)) ∧
    (20 ≤ size → buffer.getD 0 0 = CFF_MAGIC →
      buffer.getD 1 0 ≠ CFF_VERSION →
      luaO_deserializeMetadata buffer size md = (-1, md)) ∧
    (20 ≤ size → buffer.getD 0 0 = CFF_MAGIC →
      buffer.getD 1 0 = CFF_VERSION →
      size < ((4 * 4 + 4 + 32 * buffer.getD 2 0) % (2 : Int) ^ 64).toNat →
      luaO_deserializeMetadata buffer size md =
        (-1, { md with
               num_blocks := buffer.getD 2 0
               state_reg := buffer.getD 3 0
               seed := buffer.getD 4 0 })) := by
  refine ⟨?_, ?_, ?_, ?_⟩
  · intro h
    unfold luaO_deserializeMetadata
    rw [if_pos (by omega)]
  · intro hs hm
    unfold luaO_deserializeMetadata
    rw [if_neg (by omega), if_pos hm]
  · intro hs hm hv
    unfold luaO_deserializeMetadata
    rw [if_neg (by omega)]
    simp only [hm]
    rw [if_neg (by simp), if_pos hv]
  · intro hs hm hv hsz
    unfold luaO_deserializeMetadata
    rw [if_neg (by omega)]
    simp only [hm, hv]
    rw [if_neg (by simp), if_neg (by simp)]
    rw [if_pos hsz]

/-- Witness for the amended C9: the truncated-path conjunct applied to the
concrete truncated buffer. -/
theorem deserialize_failure_paths_C9_witness :
    luaO_deserializeMetadata exTruncBuf 20 mdZero =
      (-1, { mdZero with
             num_blocks := exTruncBuf.getD 2 0
             state_reg := exTruncBuf.getD 3 0
             seed := exTruncBuf.getD 4 0 }) :=
  (deserialize_failure_paths_C9 exTruncBuf 20 mdZero).2.2.2 (by norm_num)
    (by decide) (by decide) (by decide)

/-- Witness for C8: the round trip on the concrete four-block context. -/
theorem metadata_roundtrip_C8_witness :
    (luaO_serializeMetadata ctxC4 true (metadataNeeded ctxC4.blocks.length)).1
      = 0 ∧
    (luaO_deserializeMetadata
      (luaO_serializeMetadata ctxC4 true
        (metadataNeeded ctxC4.blocks.length)).2.1
      (luaO_serializeMetadata ctxC4 true
        (metadataNeeded ctxC4.blocks.length)).2.2
      mdZero).1 = 0 ∧
    (luaO_deserializeMetadata
      (luaO_serializeMetadata ctxC4 true
        (metadataNeeded ctxC4.blocks.length)).2.1
      (luaO_serializeMetadata ctxC4 true
        (metadataNeeded ctxC4.blocks.length)).2.2
      mdZero).2.num_blocks = (ctxC4.blocks.length : Int) ∧
    (luaO_deserializeMetadata
      (luaO_serializeMetadata ctxC4 true
        (metadataNeeded ctxC4.blocks.length)).2.1
      (luaO_serializeMetadata ctxC4 true
        (metadataNeeded ctxC4.blocks.length)).2.2
      mdZero).2.state_reg = ctxC4.state_reg ∧
    (luaO_deserializeMetadata
      (luaO_serializeMetadata ctxC4 true
        (metadataNeeded ctxC4.blocks.length)).2.1
      (luaO_serializeMetadata ctxC4 true
        (metadataNeeded ctxC4.blocks.length)).2.2
      mdZero).2.seed = (ctxC4.seed : Int) :=
  metadata_roundtrip_C8 ctxC4 mdZero (by decide)

/-- On a non-negative state the encoder agrees with the plain
euclidean-remainder formula. -/
theorem encodeState_eq_emod (seed : Nat) (s : Int) (h0 : 0 ≤ s) :
    luaO_encodeState s seed =
      (s * 7919 + ((seed % 30000 : Nat) : Int)) % 30000 := by
  unfold luaO_encodeState
  have hoff0 : (0 : Int) ≤ ((seed % 30000 : Nat) : Int) := Int.natCast_nonneg _
  have hofflt : ((seed % 30000 : Nat) : Int) < 30000 := by
    have := Nat.mod_lt seed (show 0 < 30000 by norm_num)
    exact_mod_cast this
  have h1 : Int.tmod (s * 7919) 30000 = (s * 7919) % 30000 :=
    Int.tmod_eq_emod (by positivity) (by norm_num)
  have hmod0 : 0 ≤ (s * 7919) % 30000 := Int.emod_nonneg _ (by norm_num)
  have hmodlt : (s * 7919) % 30000 < 30000 := Int.emod_lt_of_pos _ (by norm_num)
  have h2 : Int.tmod ((s * 7919) % 30000 + ((seed % 30000 : Nat) : Int)) 30000
      = ((s * 7919) % 30000 + ((seed % 30000 : Nat) : Int)) % 30000 :=
    Int.tmod_eq_emod (by omega) (by norm_num)
  simp only [h1, h2]
  have h3 : ((s * 7919) % 30000 + ((seed % 30000 : Nat) : Int)) % 30000
      = (s * 7919 + ((seed % 30000 : Nat) : Int)) % 30000 := by
    conv_rhs => rw [Int.add_emod]
    rw [Int.emod_eq_of_lt hoff0 hofflt]
  rw [h3]
  have h4 : 0 ≤ (s * 7919 + ((seed % 30000 : Nat) : Int)) % 30000 :=
    Int.emod_nonneg _ (by norm_num)
  rw [if_neg (by omega)]

/-- C2: for every fixed seed, `luaO_encodeState` computes
`(state * 7919 + (seed mod 30000)) mod 30000` (the result of the euclidean
remainder, hence non-negative) on the state domain, and is injective on
`0..29999`: distinct states in that range never collide. -/
theorem luaO_encodeState_formula_injective_C2 (seed : Nat) :
    (∀ s : Int, 0 ≤ s → s < 30000 →
      luaO_encodeState s seed =
        (s * 7919 + ((seed % 30000 : Nat) : Int)) % 30000) ∧
    (∀ s1 s2 : Int, 0 ≤ s1 → s1 < 30000 → 0 ≤ s2 → s2 < 30000 →
      luaO_encodeState s1 seed = luaO_encodeState s2 seed → s1 = s2) := by
  refine ⟨fun s h0 _ => encodeState_eq_emod seed s h0, ?_⟩
  intro s1 s2 h10 h11 h20 h21 h
  rw [encodeState_eq_emod seed s1 h10, encodeState_eq_emod seed s2 h20] at h
  have hme : Int.ModEq 30000 (s1 * 7919 + ((seed % 30000 : Nat) : Int))
      (s2 * 7919 + ((seed % 30000 : Nat) : Int)) := h
  have hd : (30000 : Int) ∣ (s2 * 7919 + ((seed % 30000 : Nat) : Int)) -
      (s1 * 7919 + ((seed % 30000 : Nat) : Int)) := hme.dvd
  have hd2 : (30000 : Int) ∣ (s2 - s1) * 7919 := by
    have hre : (s2 * 7919 + ((seed % 30000 : Nat) : Int)) -
        (s1 * 7919 + ((seed % 30000 : Nat) : Int)) = (s2 - s1) * 7919 := by
      ring
    rwa [hre] at hd
  have hcop : Int.gcd 30000 7919 = 1 := by norm_num
  have hd3 : (30000 : Int) ∣ (s2 - s1) :=
    Int.dvd_of_dvd_mul_left_of_gcd_one hd2 hcop
  clear h hme hd hd2 hcop
  omega

/-- Witness for C2: the formula at state 7, seed 123, and injectivity
applied at state 1. -/
theorem luaO_encodeState_formula_injective_C2_witness :
    luaO_encodeState 7 123 =
      ((7 : Int) * 7919 + ((123 % 30000 : Nat) : Int)) % 30000 ∧
    (1 : Int) = 1 :=
  ⟨(luaO_encodeState_formula_injective_C2 123).1 7 (by norm_num) (by norm_num),
   (luaO_encodeState_formula_injective_C2 123).2 1 1 (by norm_num)
     (by norm_num) (by norm_num) (by norm_num) rfl⟩

/-- C1: the claim that executing the stream produced by `luaO_flatten` with
the `CFF` flag yields the same observable results as the original stream,
for every eligible function, fails on the code: on the eligible function
`exCodeC1` the transform succeeds (status 0) and the original stream
returns after 6 steps, but the flattened stream never returns for any step
count - its relocated entry block ends in a bare conditional test whose
skip-next semantics jumps over the emitted state-register update, so the
dispatch state is stuck at the entry state and execution cycles forever. -/
theorem flatten_not_semantics_preserving_C1 :
    (luaO_flatten exProtoC1 OBFUSCATE_CFF 0 []).1 = 0 ∧
    flatCodeC1.length = 20 ∧
    (stepN exCodeC1 6 initCfgC1).mode = .returned ∧
    ∀ n, (stepN flatCodeC1 n initCfgC1).mode ≠ .returned := by
  refine ⟨by decide, by decide, by decide, ?_⟩
  have h4 : stepN flatCodeC1 4 initCfgC1 = cycleCfgC1 := by decide
  have hcyc : stepN flatCodeC1 5 cycleCfgC1 = cycleCfgC1 := by decide
  have hall : ∀ j, j < 5 →
      (stepN flatCodeC1 j cycleCfgC1).mode ≠ .returned := by decide
  have hsmall : ∀ j, j < 4 →
      (stepN flatCodeC1 j initCfgC1).mode ≠ .returned := by decide
  intro n
  by_cases h : n < 4
  · exact hsmall n h
  · have hn : n = 4 + (n - 4) := by omega
    rw [hn, stepN_add, h4]
    exact not_returned_of_cycle flatCodeC1 cycleCfgC1 5 (by omega) hcyc hall
      (n - 4)

/-- C4: the claim that after dispatcher generation every recorded
placeholder jump has been backpatched into the final instruction array
fails when bogus blocks are enabled: on the eligible function `exCodeC1`
with `CFF` and bogus blocks, generation succeeds (the enclosing transform
reports status 0) and records 12 placeholder jumps (4 real blocks plus 8
bogus dispatcher entries), but each of the 8 bogus placeholders still holds
the raw placeholder offset `-OFFSET_sJ`, whose decoded target lies far
before offset 0 - outside the 36-instruction final array.  (The backpatch
loop covers only the real blocks, and `emitBogusBlock` is never invoked, so
no bogus body exists to point at.)  By contrast, each of the 4 real-block
placeholders is patched to a target inside the array. -/
theorem dispatcher_dangling_bogus_jumps_C4 :
    (luaO_flatten exProtoC1 (OBFUSCATE_CFF ||| OBFUSCATE_BOGUS_BLOCKS) 0
      []).1 = 0 ∧
    genC4.all_block_jmp_pcs.length = 12 ∧
    genC4.new_code.length = 36 ∧
    (∀ i, i < 4 →
      0 ≤ (genC4.all_block_jmp_pcs.getD i 0 : Int) + 1 +
        GETARG_sJ (genC4.new_code.getD (genC4.all_block_jmp_pcs.getD i 0)
          default) ∧
      (genC4.all_block_jmp_pcs.getD i 0 : Int) + 1 +
        GETARG_sJ (genC4.new_code.getD (genC4.all_block_jmp_pcs.getD i 0)
          default) < 36) ∧
    ∀ i, i < 12 → 4 ≤ i →
      GETARG_sJ (genC4.new_code.getD (genC4.all_block_jmp_pcs.getD i 0)
          default) = 0 - OFFSET_sJ ∧
      ((genC4.all_block_jmp_pcs.getD i 0 : Int) + 1 +
        GETARG_sJ (genC4.new_code.getD (genC4.all_block_jmp_pcs.getD i 0)
          default)) < 0 := by
  refine ⟨by decide, by decide, by decide, by decide, ?_⟩
  decide

end LXCObf
